import Mathlib

/-!
# Sunshine: `platform/windows/display_vram.cpp`

A shallow embedding of the pointer-shape decoder, the colour-matrix table,
the conversion pipeline (`hwdevice_t`) and the capture session
(`display_vram_t`) of `display_vram.cpp`, followed by the properties
established about them.

Conventions of the embedding

* Machine integers are `Nat`/`Int`; where the source computes in `UINT`
  (32-bit unsigned) the reduction `% 4294967296` is written out.
* `float` values are read as exact rationals.
* COM handles are natural numbers, `0` being `nullptr`; an `HRESULT` is an
  `Int`, `FAILED` meaning negative.
* The outcome of every call into Direct3D/DXGI is an input of the embedded
  function, since those objects are collaborators outside the file.
-/

namespace Sunshine

/-! ## Pointer-shape decoding (`make_cursor_image`) -/

/-- The pointer shape kinds of `DXGI_OUTDUPL_POINTER_SHAPE_TYPE`. -/
inductive ShapeType where
  | MONOCHROME
  | COLOR
  | MASKED_COLOR
  deriving DecidableEq, Repr

/-- The fields of `DXGI_OUTDUPL_POINTER_SHAPE_INFO` read by the decoder. -/
structure DXGI_OUTDUPL_POINTER_SHAPE_INFO where
  Type_ : ShapeType
  Width : Nat
  Height : Nat
  Pitch : Nat
  deriving DecidableEq, Repr

def black : Nat := 0xFF000000
def white : Nat := 0xFFFFFFFF
def transparent : Nat := 0

/-- The 32-bit value stored little-endian in four consecutive bytes. -/
def loadPixel (b0 b1 b2 b3 : Nat) : Nat :=
  b0 + 256 * b1 + 65536 * b2 + 16777216 * b3

/-- The four little-endian bytes of a 32-bit value. -/
def storePixel (p : Nat) : List Nat :=
  [p % 256, p / 256 % 256, p / 65536 % 256, p / 16777216 % 256]

/-- Pixel `i` of a byte buffer viewed as `std::uint32_t*`. -/
def pixelAt (buf : List Nat) (i : Nat) : Nat :=
  loadPixel (buf.getD (4 * i) 0) (buf.getD (4 * i + 1) 0)
    (buf.getD (4 * i + 2) 0) (buf.getD (4 * i + 3) 0)

/-- The `std::for_each` of the `MASKED_COLOR` case: every 32-bit pixel with
a bit of `0xFF000000` set is overwritten by `transparent`.  A tail shorter
than one pixel is left as it is. -/
def maskedColorPass : List Nat → List Nat
  | b0 :: b1 :: b2 :: b3 :: rest =>
      (if loadPixel b0 b1 b2 b3 &&& 0xFF000000 ≠ 0 then storePixel transparent
       else [b0, b1, b2, b3]) ++ maskedColorPass rest
  | rest => rest

/-- The state of the monochrome scan: the output pixels, the position of
`pixel_data` relative to `pixel_begin`, and the target of every store made
so far (latest first).  Stores outside the buffer are undefined behaviour in
the source; here they leave `cursor_img` as it is and stay visible in
`writes`. -/
structure Scan where
  cursor_img : List Nat
  pixel_data : Nat
  writes : List Nat
  deriving DecidableEq, Repr

/-- The store `*(pixel_begin + i) = v`. -/
def Scan.store (s : Scan) (i v : Nat) : Scan :=
  { s with cursor_img := s.cursor_img.set i v, writes := i :: s.writes }

/-- The load `*(pixel_begin + i)`; outside the buffer it reads `0`. -/
def Scan.load (s : Scan) (i : Nat) : Nat :=
  s.cursor_img.getD i 0

/-- The expression
`((*and_mask & bit) ? 1 : 0) + ((*xor_mask & bit) ? 2 : 0)` for `bit = 1 << c`. -/
def colorType (and_byte xor_byte c : Nat) : Nat :=
  (if and_byte &&& (1 <<< c) ≠ 0 then 1 else 0) +
    (if xor_byte &&& (1 <<< c) ≠ 0 then 2 else 0)

/-- The body of `case 3` (inverse): the four neighbour stores followed by
the store of `white` to the current pixel.  `column` is the `bool`
`(pixel_data - pixel_begin) % Width != 0`, compared as `0`/`1` against the
unsigned `Width - 1`. -/
def inverseCase (Width : Nat) (s : Scan) : Scan :=
  let p := s.pixel_data
  let column : Nat := if p % Width ≠ 0 then 1 else 0
  let s1 := if Width ≤ p ∧ s.load (p - Width) = transparent
            then s.store (p - Width) black else s
  let s2 := if column ≠ 0 ∧ 1 ≤ p ∧ s1.load (p - 1) = transparent
            then s1.store (p - 1) black else s1
  let s3 := if p + Width < s2.cursor_img.length
            then s2.store (p + Width) black else s2
  let s4 := if column ≠ (Width + 4294967295) % 4294967296
            then s3.store (p + 1) black else s3
  s4.store p white

/-- The `switch(color_type)` for one bit, followed by `++pixel_data`. -/
def visitPixel (Width color_type : Nat) (s : Scan) : Scan :=
  let s' :=
    match color_type with
    | 0 => s.store s.pixel_data black
    | 2 => s.store s.pixel_data white
    | 1 => s.store s.pixel_data transparent
    | _ => inverseCase Width s
  { s' with pixel_data := s'.pixel_data + 1 }

/-- The loop `for(auto c = 7; c >= 0; --c)` over one pair of mask bytes;
`n` is `c + 1`. -/
def bitLoop (Width and_byte xor_byte : Nat) : Nat → Scan → Scan
  | 0, s => s
  | c + 1, s =>
      bitLoop Width and_byte xor_byte c
        (visitPixel Width (colorType and_byte xor_byte c) s)

/-- The loop `for(auto x = 0; x < bytes; ++x)`; `n` counts the remaining
iterations, `and_mask` is at offset `x` and `xor_mask` at `bytes + x` of
`img_data`. -/
def byteLoop (Width bytes : Nat) (img_data : List Nat) : Nat → Nat → Scan → Scan
  | 0, _, s => s
  | n + 1, x, s =>
      byteLoop Width bytes img_data n (x + 1)
        (bitLoop Width (img_data.getD x 0) (img_data.getD (bytes + x) 0) 8 s)

/-- The monochrome part of `make_cursor_image`, from `shape_info.Height /= 2`
to the end of the scan.  The buffer holds `Width * Height * 4` bytes (a
`UINT` product), zero-initialised. -/
def monochromeScan (img_data : List Nat) (shape_info : DXGI_OUTDUPL_POINTER_SHAPE_INFO) : Scan :=
  let Height := shape_info.Height / 2
  let size := shape_info.Width * Height * 4 % 4294967296
  let bytes := shape_info.Pitch * Height % 4294967296
  byteLoop shape_info.Width bytes img_data bytes 0
    { cursor_img := List.replicate (size / 4) 0, pixel_data := 0, writes := [] }

/-- The function `make_cursor_image`: the returned byte buffer. -/
def make_cursor_image (img_data : List Nat) (shape_info : DXGI_OUTDUPL_POINTER_SHAPE_INFO) :
    List Nat :=
  match shape_info.Type_ with
  | ShapeType.MASKED_COLOR => maskedColorPass img_data
  | ShapeType.COLOR => img_data
  | ShapeType.MONOCHROME =>
      ((monochromeScan img_data shape_info).cursor_img.map storePixel).flatten

/-- The image height after halving, as `make_cursor_image` computes it. -/
def imageHeight (shape_info : DXGI_OUTDUPL_POINTER_SHAPE_INFO) : Nat :=
  shape_info.Height / 2

/-- Pixel at row `r`, column `c` of a decoded image of width `Width`. -/
def imagePixel (img : List Nat) (Width r c : Nat) : Nat :=
  pixelAt img (r * Width + c)

/-- Bit `7 - c % 8` of byte `r * Pitch + c / 8` of a mask starting at
offset `base` of `img_data`: the mask bit of pixel `(r, c)` under a row
stride of `Pitch` bytes. -/
def maskBit (img_data : List Nat) (base Pitch r c : Nat) : Bool :=
  (img_data.getD (base + r * Pitch + c / 8) 0).testBit (7 - c % 8)

/-- Pixel `(r, c)` of a monochrome shape with `h` rows is inverse: its AND
bit and its XOR bit are both set. -/
def inversePixel (img_data : List Nat) (Pitch h r c : Nat) : Bool :=
  maskBit img_data 0 Pitch r c && maskBit img_data (Pitch * h) Pitch r c

/-! ### The scan as one pass, and its result -/

/-- The colour type of the mask bit that the scan pairs with pixel slot `i`:
bit `7 - i % 8` of byte `i / 8` of each mask. -/
def ctAt (img_data : List Nat) (bytes i : Nat) : Nat :=
  colorType (img_data.getD (i / 8) 0) (img_data.getD (bytes + i / 8) 0) (7 - i % 8)

/-- The scan as one pass over a list of pixel slots. -/
def scanPixels (Width : Nat) (ct : Nat → Nat) (l : List Nat) (s : Scan) : Scan :=
  l.foldl (fun s i => visitPixel Width (ct i) s) s

/-- The value the scan has left in the visited pixel `q` once the first `k`
slots are visited. -/
def visitedValue (Width : Nat) (ct : Nat → Nat) (k q : Nat) : Nat :=
  if ct q = 0 then black
  else if ct q = 2 then white
  else if ct q = 1 then
    (if (q + Width < k ∧ 3 ≤ ct (q + Width)) ∨
        (q + 1 < k ∧ (q + 1) % Width ≠ 0 ∧ 3 ≤ ct (q + 1)) then black else transparent)
  else white

/-- What holds of the scan state once the first `k` pixel slots are visited:
`pixel_data` stands at `k`, the buffer has its `L` pixels, and every visited
pixel of the buffer holds `visitedValue`. -/
structure ScanInv (Width : Nat) (ct : Nat → Nat) (L k : Nat) (s : Scan) : Prop where
  pos : s.pixel_data = k
  len : s.cursor_img.length = L
  val : ∀ q, q < k → q < L → s.load q = visitedValue Width ct k q

/-! ## Colour matrices (`make_color_matrix`, `colors`) -/

/-- A `DirectX::XMFLOAT4`. -/
structure XMFLOAT4 where
  x : ℚ
  y : ℚ
  z : ℚ
  w : ℚ
  deriving DecidableEq

/-- The constant-buffer layout `color_t`. -/
structure color_t where
  color_vec_y : XMFLOAT4
  color_vec_u : XMFLOAT4
  color_vec_v : XMFLOAT4
  deriving DecidableEq

/-- The function `make_color_matrix`. -/
def make_color_matrix (Cr Cb U_max V_max add_Y add_UV : ℚ) : color_t :=
  let Cg := 1 - Cr - Cb
  let Cr_i := 1 - Cr
  let Cb_i := 1 - Cb
  { color_vec_y := ⟨Cr, Cg, Cb, add_Y⟩
    color_vec_u := ⟨-(Cr * U_max / Cb_i), -(Cg * U_max / Cb_i), U_max, add_UV⟩
    color_vec_v := ⟨V_max, -(Cg * V_max / Cr_i), -(Cb * V_max / Cr_i), add_UV⟩ }

/-- The table `colors[]`. -/
def colors : List color_t :=
  [ make_color_matrix 0.299 0.114 0.436 0.615 0.0625 0.5,
    make_color_matrix 0.299 0.114 0.5 0.5 0.0 0.5,
    make_color_matrix 0.2126 0.0722 0.436 0.615 0.0625 0.5,
    make_color_matrix 0.2126 0.0722 0.5 0.5 0.0 0.5 ]

/-- One row `(Cr, Cb, Umax, Vmax, addY, addUV)` of the parameter table. -/
structure MatrixParams where
  Cr : ℚ
  Cb : ℚ
  Umax : ℚ
  Vmax : ℚ
  addY : ℚ
  addUV : ℚ

/-- The parameter table as the specification prints it, by standard
(`0` BT601, `1` BT709) and range (`0` limited, `1` full). -/
def specTable (standard rangeIsFull : Fin 2) : MatrixParams :=
  match standard, rangeIsFull with
  | 0, 0 => ⟨299 / 1000, 114 / 1000, 436 / 1000, 615 / 1000, 625 / 10000, 5 / 10⟩
  | 0, 1 => ⟨299 / 1000, 114 / 1000, 5 / 10, 5 / 10, 0, 5 / 10⟩
  | 1, 0 => ⟨2126 / 10000, 722 / 10000, 436 / 1000, 615 / 1000, 625 / 10000, 5 / 10⟩
  | 1, 1 => ⟨2126 / 10000, 722 / 10000, 5 / 10, 5 / 10, 0, 5 / 10⟩

/-- The matrix the specification derives from one row of parameters. -/
def buildMatrix (m : MatrixParams) : color_t :=
  { color_vec_y := ⟨m.Cr, 1 - m.Cr - m.Cb, m.Cb, m.addY⟩
    color_vec_u := ⟨-m.Cr * m.Umax / (1 - m.Cb), -(1 - m.Cr - m.Cb) * m.Umax / (1 - m.Cb),
                    m.Umax, m.addUV⟩
    color_vec_v := ⟨m.Vmax, -(1 - m.Cr - m.Cb) * m.Vmax / (1 - m.Cr),
                    -m.Cb * m.Vmax / (1 - m.Cr), m.addUV⟩ }

/-! ## Direct3D collaborators -/

/-- A COM interface pointer; `0` is `nullptr`. -/
abbrev Handle := Nat

/-- An `HRESULT`. -/
abbrev HRESULT := Int

/-- The `FAILED` test of an `HRESULT`. -/
def FAILED (status : HRESULT) : Bool := decide (status < 0)

/-- What one `Create...` call of the device delivers: its `HRESULT` and
the pointer it stores through its out-parameter. -/
structure Created where
  status : HRESULT
  ptr : Handle
  deriving DecidableEq

/-- A `D3D11_VIEWPORT`. -/
structure D3D11_VIEWPORT where
  TopLeftX : ℚ
  TopLeftY : ℚ
  Width : ℚ
  Height : ℚ
  MinDepth : ℚ
  MaxDepth : ℚ
  deriving DecidableEq

/-- The calls this file makes on the `ID3D11DeviceContext`. -/
inductive Cmd where
  | OMSetRenderTargets (rt : Handle)
  | OMSetBlendState (blend : Handle)
  | VSSetShader (vs : Handle)
  | PSSetShader (ps : Handle)
  | PSSetShaderResources (res : Handle)
  | PSSetSamplers (sampler : Handle)
  | PSSetConstantBuffers (buf : Handle)
  | VSSetConstantBuffers (buf : Handle)
  | IASetPrimitiveTopology
  | IASetInputLayout (layout : Handle)
  | RSSetViewports (view : D3D11_VIEWPORT)
  | Draw (VertexCount StartVertexLocation : Nat)
  | CopyResource (dst src : Handle)
  deriving DecidableEq

/-- The function `make_buffer`: `nullptr` when `CreateBuffer` returns a
non-zero status. -/
def make_buffer (c : Created) : Handle :=
  if c.status ≠ 0 then 0 else c.ptr

/-- The function `make_blend`: `nullptr` when `CreateBlendState` returns a
non-zero status. -/
def make_blend (c : Created) : Handle :=
  if c.status ≠ 0 then 0 else c.ptr

/-! ## The conversion pipeline (`hwdevice_t`) -/

/-- The struct `img_d3d_t` with the members of `platf::img_t` it inherits. -/
structure img_d3d_t where
  input_res : Handle
  texture : Handle
  data : Handle
  width : Int
  height : Int
  row_pitch : Int
  pixel_pitch : Int
  deriving DecidableEq

/-- The pixel formats of `pix_fmt_e` that reach this file. -/
inductive pix_fmt_e where
  | nv12
  | p010
  deriving DecidableEq

/-- The data members of `hwdevice_t`; `data` is the device pointer of the
base class and `color_p` an index into `colors`. -/
structure hwdevice_t where
  data : Handle
  color_p : Nat
  blend_enable : Handle
  blend_disable : Handle
  info_scene : Handle
  color_matrix : Handle
  sampler_linear : Handle
  input_layout : Handle
  nv12_Y_rt : Handle
  nv12_UV_rt : Handle
  scene_rt : Handle
  scene_sr : Handle
  img : img_d3d_t
  merge_UV_vs : Handle
  merge_UV_ps : Handle
  merge_Y_vs : Handle
  merge_Y_ps : Handle
  scene_ps : Handle
  cursor_view : D3D11_VIEWPORT
  cursor_scaled_width : ℚ
  cursor_scaled_height : ℚ
  cursor_scale : ℚ
  cursor_visible : Bool
  out_width : ℚ
  out_height : ℚ
  deriving DecidableEq

/-- The object right after the constructor `hwdevice_t(hwdevices_p)`: every
smart pointer is null.  The scalar members are indeterminate in the source;
they are `0`/`false` here. -/
def hwdevice_t.constructed : hwdevice_t :=
  { data := 0, color_p := 0, blend_enable := 0, blend_disable := 0, info_scene := 0,
    color_matrix := 0, sampler_linear := 0, input_layout := 0, nv12_Y_rt := 0,
    nv12_UV_rt := 0, scene_rt := 0, scene_sr := 0,
    img := ⟨0, 0, 0, 0, 0, 0, 0⟩,
    merge_UV_vs := 0, merge_UV_ps := 0, merge_Y_vs := 0, merge_Y_ps := 0, scene_ps := 0,
    cursor_view := ⟨0, 0, 0, 0, 0, 0⟩,
    cursor_scaled_width := 0, cursor_scaled_height := 0, cursor_scale := 0,
    cursor_visible := false, out_width := 0, out_height := 0 }

/-- The method `set_cursor_pos`. -/
def hwdevice_t.set_cursor_pos (self : hwdevice_t) (rel_x rel_y : Int) (visible : Bool) :
    hwdevice_t :=
  let self := { self with cursor_visible := visible }
  if !visible then self
  else
    let x := (rel_x : ℚ) * self.cursor_scale
    let y := (rel_y : ℚ) * self.cursor_scale
    { self with
      cursor_view :=
        { self.cursor_view with
          TopLeftX := x, TopLeftY := y,
          Width := self.cursor_scaled_width, Height := self.cursor_scaled_height } }

/-- The method `set_cursor_texture`; `srv` is the outcome of
`CreateShaderResourceView` on the cursor texture. -/
def hwdevice_t.set_cursor_texture (self : hwdevice_t) (_texture : Handle)
    (width height : Int) (srv : Created) : Int × hwdevice_t :=
  let self :=
    { self with
      cursor_scaled_width := (width : ℚ) * self.cursor_scale,
      cursor_scaled_height := (height : ℚ) * self.cursor_scale }
  if FAILED srv.status then (-1, self)
  else (0, { self with img := { self.img with input_res := srv.ptr } })

/-- The private method `_init_view_port(width, height)`. -/
def _init_view_port (width height : ℚ) : Cmd :=
  Cmd.RSSetViewports ⟨0, 0, width, height, 0, 1⟩

/-- The method `convert`: the result code, the frame image (whose shader
view is created on first use) and the context calls issued, in order.
`srv` is the outcome of `CreateShaderResourceView` on the frame texture. -/
def hwdevice_t.convert (self : hwdevice_t) (img : img_d3d_t) (srv : Created) :
    Int × img_d3d_t × List Cmd :=
  if img.input_res = 0 ∧ FAILED srv.status then (-1, img, [])
  else
    let img := if img.input_res = 0 then { img with input_res := srv.ptr } else img
    let input_res_p := img.input_res
    let cursor_res_p := self.img.input_res
    let scene_rt_p := self.scene_rt
    let Y_rt_p := self.nv12_Y_rt
    let UV_rt_p := self.nv12_UV_rt
    let cursorPass : List Cmd :=
      if self.cursor_visible then
        [ _init_view_port img.width img.height,
          Cmd.OMSetRenderTargets scene_rt_p,
          Cmd.VSSetShader self.merge_Y_vs,
          Cmd.PSSetShader self.scene_ps,
          Cmd.PSSetShaderResources input_res_p,
          Cmd.Draw 3 0,
          Cmd.OMSetBlendState self.blend_enable,
          Cmd.RSSetViewports self.cursor_view,
          Cmd.PSSetShaderResources cursor_res_p,
          Cmd.Draw 3 0,
          Cmd.OMSetBlendState self.blend_disable ]
      else []
    let input_res_p := if self.cursor_visible then self.scene_sr else input_res_p
    (0, img,
      cursorPass ++
      [ _init_view_port self.out_width self.out_height,
        Cmd.OMSetRenderTargets Y_rt_p,
        Cmd.VSSetShader self.merge_Y_vs,
        Cmd.PSSetShader self.merge_Y_ps,
        Cmd.PSSetShaderResources input_res_p,
        Cmd.Draw 3 0,
        _init_view_port (self.out_width / 2) (self.out_height / 2),
        Cmd.OMSetRenderTargets UV_rt_p,
        Cmd.VSSetShader self.merge_UV_vs,
        Cmd.PSSetShader self.merge_UV_ps,
        Cmd.PSSetShaderResources input_res_p,
        Cmd.Draw 3 0 ])

/-- The method `set_colorspace`; `buf` is the outcome of `CreateBuffer`
inside `make_buffer`. -/
def hwdevice_t.set_colorspace (self : hwdevice_t) (colorspace color_range : Nat)
    (buf : Created) : hwdevice_t × List Cmd :=
  let color_p :=
    match colorspace with
    | 5 => 0
    | 1 => 2
    | _ => 0
  let color_p := if color_range > 1 then color_p + 1 else color_p
  let self := { self with color_p := color_p }
  let color_matrix := make_buffer buf
  if color_matrix = 0 then (self, [])
  else ({ self with color_matrix := color_matrix }, [Cmd.PSSetConstantBuffers color_matrix])

/-- The outcomes of the resource creations of `init`, in call order. -/
structure InitOutcomes where
  merge_Y_vs : Created
  merge_Y_ps : Created
  merge_UV_ps : Created
  merge_UV_vs : Created
  scene_ps : Created
  blend_disable : Created
  blend_enable : Created
  scene_tex : Created
  scene_sr : Created
  scene_rt : Created
  color_matrix : Created
  info_scene : Created
  input_layout : Created
  out_tex : Created
  nv12_Y_rt : Created
  nv12_UV_rt : Created
  sampler_linear : Created

/-- The private method `_init_rt`: the result code and the values left in
`shader_res` and `render_target`.  Only the status of `CreateTexture2D` is
stored in `status`; the two view creations are tested against that same
variable. -/
def _init_rt (shader_res render_target : Handle) (tex srv rtv : Created) :
    Int × Handle × Handle :=
  let status := tex.status
  -- after `CreateTexture2D`
  if status ≠ 0 then (-1, shader_res, render_target)
  else
  -- after `CreateShaderResourceView`, whose result is dropped
  if status ≠ 0 then (-1, shader_res, render_target)
  else
  let shader_res := srv.ptr
  -- after `CreateRenderTargetView`, whose result is dropped
  if status ≠ 0 then (-1, shader_res, render_target)
  else
  let render_target := rtv.ptr
  (0, shader_res, render_target)

/-- The part of `init` that creates the five shader objects, each creation
followed by its `if(status) return -1`. -/
def initShaders (self : hwdevice_t) (o : InitOutcomes) : Int × hwdevice_t :=
  if o.merge_Y_vs.status ≠ 0 then (-1, self)
  else
  let self := { self with merge_Y_vs := o.merge_Y_vs.ptr }
  if o.merge_Y_ps.status ≠ 0 then (-1, self)
  else
  let self := { self with merge_Y_ps := o.merge_Y_ps.ptr }
  if o.merge_UV_ps.status ≠ 0 then (-1, self)
  else
  let self := { self with merge_UV_ps := o.merge_UV_ps.ptr }
  if o.merge_UV_vs.status ≠ 0 then (-1, self)
  else
  let self := { self with merge_UV_vs := o.merge_UV_vs.ptr }
  if o.scene_ps.status ≠ 0 then (-1, self)
  else
  (0, { self with scene_ps := o.scene_ps.ptr })

/-- The part of `init` from the two `make_blend` calls to
`input_layout.reset`: blend states, scene-composite surface, colour-matrix
buffer, scene-info buffer, input layout.  The test `if(!info_in)` is on the
local array, which is never null, and the status of `CreateInputLayout` is
not read. -/
def initScene (self : hwdevice_t) (o : InitOutcomes) : Int × hwdevice_t :=
  let self := { self with blend_disable := make_blend o.blend_disable }
  let self := { self with blend_enable := make_blend o.blend_enable }
  let rt := _init_rt self.scene_sr self.scene_rt o.scene_tex o.scene_sr o.scene_rt
  let self := { self with scene_sr := rt.2.1, scene_rt := rt.2.2 }
  if rt.1 ≠ 0 then (-1, self)
  else
  let self := { self with color_matrix := make_buffer o.color_matrix }
  if self.color_matrix = 0 then (-1, self)
  else
  let self := { self with info_scene := make_buffer o.info_scene }
  (0, { self with input_layout := o.input_layout.ptr })

/-- The part of `init` from the output `CreateTexture2D` to
`sampler_linear.reset`: output planar texture, its two render-target views,
the sampler. -/
def initOutput (self : hwdevice_t) (out_width out_height : Int) (o : InitOutcomes) :
    Int × hwdevice_t :=
  if FAILED o.out_tex.status then (-1, self)
  else
  let self :=
    { self with
      img :=
        { self.img with
          texture := o.out_tex.ptr, width := out_width, height := out_height,
          data := o.out_tex.ptr, row_pitch := out_width, pixel_pitch := 1 } }
  if FAILED o.nv12_Y_rt.status then (-1, self)
  else
  let self := { self with nv12_Y_rt := o.nv12_Y_rt.ptr }
  if FAILED o.nv12_UV_rt.status then (-1, self)
  else
  let self := { self with nv12_UV_rt := o.nv12_UV_rt.ptr }
  if FAILED o.sampler_linear.status then (-1, self)
  else
  (0, { self with sampler_linear := o.sampler_linear.ptr })

/-- The method `init`: the result code, the object as it is left, and the
context calls issued.  Its body is the scalar set-up, then `initShaders`,
`initScene` and `initOutput` in this order, each left with `-1` on its first
failed test, then the context set-up. -/
def hwdevice_t.init (self : hwdevice_t) (device_p : Handle)
    (in_width _in_height out_width out_height : Int) (_pix_fmt : pix_fmt_e)
    (o : InitOutcomes) : Int × hwdevice_t × List Cmd :=
  let self :=
    { self with
      data := device_p,
      cursor_scale := (out_width : ℚ) / (in_width : ℚ),
      cursor_visible := false,
      cursor_view := { self.cursor_view with MinDepth := 0, MaxDepth := 1 },
      out_width := out_width,
      out_height := out_height }
  let r := initShaders self o
  if r.1 ≠ 0 then (-1, r.2, [])
  else
  let r := initScene r.2 o
  if r.1 ≠ 0 then (-1, r.2, [])
  else
  let r := initOutput r.2 out_width out_height o
  if r.1 ≠ 0 then (-1, r.2, [])
  else
  let self := r.2
  (0, self,
    [ Cmd.OMSetBlendState self.blend_disable,
      Cmd.PSSetSamplers self.sampler_linear,
      Cmd.PSSetConstantBuffers self.color_matrix,
      Cmd.VSSetConstantBuffers self.info_scene,
      Cmd.IASetPrimitiveTopology,
      Cmd.IASetInputLayout self.input_layout ])

/-- The render target bound at each `Draw` of a call sequence, in order,
when `bound` is the target bound before the first call. -/
def drawTargets (bound : Handle) : List Cmd → List Handle
  | [] => []
  | Cmd.OMSetRenderTargets rt :: rest => drawTargets rt rest
  | Cmd.Draw _ _ :: rest => bound :: drawTargets bound rest
  | _ :: rest => drawTargets bound rest

/-- The pixel-shader resource bound at each `Draw` of a call sequence, in
order, when `bound` is the resource bound before the first call. -/
def drawResources (bound : Handle) : List Cmd → List Handle
  | [] => []
  | Cmd.PSSetShaderResources res :: rest => drawResources res rest
  | Cmd.Draw _ _ :: rest => bound :: drawResources bound rest
  | _ :: rest => drawResources bound rest

/-- The number of `Draw` calls in a call sequence. -/
def drawCount (cmds : List Cmd) : Nat :=
  (cmds.filter fun c => match c with | Cmd.Draw _ _ => true | _ => false).length

/-- A call of one of the public methods of a pipeline after `init`, with
the outcome of the resource creation it performs. -/
inductive PipelineCall where
  | set_cursor_texture (texture : Handle) (width height : Int) (srv : Created)
  | set_cursor_pos (rel_x rel_y : Int) (visible : Bool)
  | set_colorspace (colorspace color_range : Nat) (buf : Created)
  | convert (img : img_d3d_t) (srv : Created)

/-- The pipeline after one method call. -/
def hwdevice_t.call (self : hwdevice_t) : PipelineCall → hwdevice_t
  | .set_cursor_texture texture width height srv =>
      (self.set_cursor_texture texture width height srv).2
  | .set_cursor_pos rel_x rel_y visible => self.set_cursor_pos rel_x rel_y visible
  | .set_colorspace colorspace color_range buf =>
      (self.set_colorspace colorspace color_range buf).1
  | .convert _ _ => self

/-- The pipeline after a sequence of method calls, first call first. -/
def hwdevice_t.calls (self : hwdevice_t) (cs : List PipelineCall) : hwdevice_t :=
  cs.foldl hwdevice_t.call self

/-- The `visible` argument of the latest `set_cursor_pos` of a call
sequence, and `dflt` when the sequence has none. -/
def lastVisible (dflt : Bool) : List PipelineCall → Bool
  | [] => dflt
  | .set_cursor_pos _ _ visible :: rest => lastVisible visible rest
  | _ :: rest => lastVisible dflt rest

/-! ## The capture session (`display_vram_t`) -/

/-- The result type `capture_e`. -/
inductive capture_e where
  | ok
  | reinit
  | timeout
  | error
  deriving DecidableEq

/-- The member `PointerPosition` of the frame information. -/
structure DXGI_OUTDUPL_POINTER_POSITION where
  x : Int
  y : Int
  Visible : Bool
  deriving DecidableEq

/-- The fields of `DXGI_OUTDUPL_FRAME_INFO` read by `snapshot`. -/
structure DXGI_OUTDUPL_FRAME_INFO where
  LastPresentTime : Int
  LastMouseUpdateTime : Int
  AccumulatedFrames : Nat
  PointerPosition : DXGI_OUTDUPL_POINTER_POSITION
  PointerShapeBufferSize : Nat
  deriving DecidableEq

/-- The member `cursor` of the session. -/
structure cursor_t where
  texture : Handle
  width : Int
  height : Int
  deriving DecidableEq

/-- A method call made on a pipeline through the registry. -/
inductive Visit where
  | set_cursor_texture (hwdevice : Nat)
  | set_cursor_pos (hwdevice : Nat)
  deriving DecidableEq

/-- The conversion of a `UINT` to the 32-bit signed `LONG`. -/
def toLONG (n : Nat) : Int :=
  if n % 4294967296 < 2147483648 then (n % 4294967296 : Nat)
  else ((n % 4294967296 : Nat) : Int) - 4294967296

/-- The session: the members of `display_vram_t` used in this file
(`hwdevices` holds addresses), the pipeline objects alive in memory by
address, the calls issued on the shared device context (oldest first), and
the calls made through the registry (oldest first). -/
structure display_vram_t where
  device : Handle
  width : Int
  height : Int
  cursor : cursor_t
  hwdevices : List Nat
  objects : List (Nat × hwdevice_t)
  device_ctx : List Cmd
  visits : List Visit
  deriving DecidableEq

/-- The addresses of the live pipeline objects. -/
def display_vram_t.live (self : display_vram_t) : List Nat :=
  self.objects.map Prod.fst

/-- Replace the object at address `p` by its image under `f`. -/
def updateObject (p : Nat) (f : hwdevice_t → hwdevice_t) :
    List (Nat × hwdevice_t) → List (Nat × hwdevice_t)
  | [] => []
  | (a, o) :: rest =>
      if a = p then (a, f o) :: updateObject p f rest
      else (a, o) :: updateObject p f rest

/-- The object at address `p`, if one is alive there. -/
def lookupObject (p : Nat) : List (Nat × hwdevice_t) → Option hwdevice_t
  | [] => none
  | (a, o) :: rest => if a = p then some o else lookupObject p rest

/-- What the collaborators deliver during one `snapshot`: the result of
`dup.next_frame`, of `GetFramePointerShape`, of the cursor `CreateTexture2D`,
of `CreateShaderResourceView` inside `set_cursor_texture` for the pipeline
at each address, and of `QueryInterface`. -/
structure SnapshotEnv where
  capture_status : capture_e
  frame_info : DXGI_OUTDUPL_FRAME_INFO
  res_p : Handle
  shape_status : HRESULT
  img_data : List Nat
  shape_info : DXGI_OUTDUPL_POINTER_SHAPE_INFO
  cursor_tex : Created
  cursor_srv : Nat → Created
  src : Created

/-- The loop `for(auto *hwdevice : hwdevices)` calling `set_cursor_texture`;
`true` in the first component when a call returned non-zero and the loop was
left early. -/
def broadcastTexture (srv : Nat → Created) (tex_p : Handle) (width height : Int) :
    List Nat → display_vram_t → Bool × display_vram_t
  | [], s => (false, s)
  | p :: rest, s =>
      let s := { s with visits := s.visits ++ [Visit.set_cursor_texture p] }
      match lookupObject p s.objects with
      | none => broadcastTexture srv tex_p width height rest s
      | some o =>
          let r := o.set_cursor_texture tex_p width height (srv p)
          let s := { s with objects := updateObject p (fun _ => r.2) s.objects }
          if r.1 ≠ 0 then (true, s)
          else broadcastTexture srv tex_p width height rest s

/-- The loop `for(auto *hwdevice : hwdevices)` calling `set_cursor_pos`. -/
def broadcastPos (rel_x rel_y : Int) (visible : Bool) :
    List Nat → display_vram_t → display_vram_t
  | [], s => s
  | p :: rest, s =>
      broadcastPos rel_x rel_y visible rest
        { s with
          visits := s.visits ++ [Visit.set_cursor_pos p],
          objects := updateObject p (fun o => o.set_cursor_pos rel_x rel_y visible) s.objects }

/-- The method `snapshot`; `img` is the capture image whose texture receives
the frame.  The height of the cursor texture is a quotient by
`4 * Width`, which the source leaves undefined for `Width = 0` and which is
`0` here. -/
def display_vram_t.snapshot (self : display_vram_t) (img : img_d3d_t) (cursor_visible : Bool)
    (env : SnapshotEnv) : capture_e × display_vram_t :=
  if env.capture_status ≠ capture_e.ok then (env.capture_status, self)
  else
  let frame_info := env.frame_info
  let mouse_update_flag : Bool :=
    decide (frame_info.LastMouseUpdateTime ≠ 0) || decide (frame_info.PointerShapeBufferSize > 0)
  let frame_update_flag : Bool :=
    decide (frame_info.AccumulatedFrames ≠ 0) || decide (frame_info.LastPresentTime ≠ 0)
  let update_flag := mouse_update_flag || frame_update_flag
  if !update_flag then (capture_e.timeout, self)
  else
  let shape : Option (capture_e × display_vram_t) × display_vram_t :=
    if frame_info.PointerShapeBufferSize > 0 then
      if FAILED env.shape_status then (some (capture_e.error, self), self)
      else
      let cursor_img := make_cursor_image env.img_data env.shape_info
      let SysMemPitch := 4 * env.shape_info.Width % 4294967296
      let t_Width := env.shape_info.Width
      let t_Height := cursor_img.length / SysMemPitch
      if FAILED env.cursor_tex.status then (some (capture_e.error, self), self)
      else
      let r := broadcastTexture env.cursor_srv env.cursor_tex.ptr (toLONG t_Width)
                 (toLONG t_Height) self.hwdevices self
      if r.1 then (some (capture_e.error, r.2), r.2)
      else
      (none, { r.2 with cursor := ⟨env.cursor_tex.ptr, toLONG t_Width, toLONG t_Height⟩ })
    else (none, self)
  match shape.1 with
  | some result => result
  | none =>
  let self := shape.2
  let self :=
    if frame_info.LastMouseUpdateTime ≠ 0 then
      broadcastPos frame_info.PointerPosition.x frame_info.PointerPosition.y
        (frame_info.PointerPosition.Visible && cursor_visible) self.hwdevices self
    else self
  if frame_update_flag then
    if FAILED env.src.status then (capture_e.error, self)
    else
    (capture_e.ok,
      { self with device_ctx := self.device_ctx ++ [Cmd.CopyResource img.texture env.src.ptr] })
  else (capture_e.ok, self)

/-- The pointer-shape block of `snapshot`
(`if(frame_info.PointerShapeBufferSize > 0)`) on its own: the result with
which the block leaves `snapshot` early, if it does, and the session after
the block. -/
def snapshotShape (self : display_vram_t) (env : SnapshotEnv) :
    Option (capture_e × display_vram_t) × display_vram_t :=
  if env.frame_info.PointerShapeBufferSize > 0 then
    if FAILED env.shape_status then (some (capture_e.error, self), self)
    else
    let cursor_img := make_cursor_image env.img_data env.shape_info
    let SysMemPitch := 4 * env.shape_info.Width % 4294967296
    let t_Width := env.shape_info.Width
    let t_Height := cursor_img.length / SysMemPitch
    if FAILED env.cursor_tex.status then (some (capture_e.error, self), self)
    else
    let r := broadcastTexture env.cursor_srv env.cursor_tex.ptr (toLONG t_Width)
               (toLONG t_Height) self.hwdevices self
    if r.1 then (some (capture_e.error, r.2), r.2)
    else
    (none, { r.2 with cursor := ⟨env.cursor_tex.ptr, toLONG t_Width, toLONG t_Height⟩ })
  else (none, self)

/-- The part of `snapshot` after the pointer-shape block on its own: the
position broadcast and the frame copy. -/
def snapshotFrame (self : display_vram_t) (img : img_d3d_t) (cursor_visible : Bool)
    (env : SnapshotEnv) : capture_e × display_vram_t :=
  let self :=
    if env.frame_info.LastMouseUpdateTime ≠ 0 then
      broadcastPos env.frame_info.PointerPosition.x env.frame_info.PointerPosition.y
        (env.frame_info.PointerPosition.Visible && cursor_visible) self.hwdevices self
    else self
  if (decide (env.frame_info.AccumulatedFrames ≠ 0) ||
      decide (env.frame_info.LastPresentTime ≠ 0)) = true then
    if FAILED env.src.status then (capture_e.error, self)
    else
    (capture_e.ok,
      { self with device_ctx := self.device_ctx ++ [Cmd.CopyResource img.texture env.src.ptr] })
  else (capture_e.ok, self)

/-- The destructor `~hwdevice_t` of the pipeline at address `p`: the first
occurrence of `p` found in the registry is erased, and the object is gone. -/
def display_vram_t.destroy (self : display_vram_t) (p : Nat) : display_vram_t :=
  { self with
    hwdevices := self.hwdevices.erase p,
    objects := self.objects.filter fun e => e.1 ≠ p }

/-- The method `make_hwdevice`; `p` is the address `std::make_shared` returns
for the new pipeline, `o` the creation outcomes of its `init` and `srv` the
outcome of the view creation in `set_cursor_texture`.  The first component is
the returned pointer, `none` for `nullptr`. -/
def display_vram_t.make_hwdevice (self : display_vram_t) (p : Nat) (width height : Int)
    (pix_fmt : pix_fmt_e) (o : InitOutcomes) (srv : Created) : Option Nat × display_vram_t :=
  if pix_fmt ≠ pix_fmt_e.nv12 then (none, self)
  else
  let r := hwdevice_t.constructed.init self.device self.width self.height width height pix_fmt o
  let self := { self with device_ctx := self.device_ctx ++ r.2.2 }
  let alive := { self with objects := self.objects ++ [(p, r.2.1)] }
  if r.1 ≠ 0 then (none, alive.destroy p)
  else
  let hwdevice := r.2.1
  let t := hwdevice.set_cursor_texture self.cursor.texture self.cursor.width self.cursor.height srv
  if self.cursor.texture ≠ 0 ∧ t.1 ≠ 0 then
    (none, { alive with objects := self.objects ++ [(p, t.2)] }.destroy p)
  else
  let hwdevice := if self.cursor.texture ≠ 0 then t.2 else hwdevice
  (some p,
    { self with
      hwdevices := self.hwdevices ++ [p],
      objects := self.objects ++ [(p, hwdevice)] })

/-- A step of the life of a session: a `make_hwdevice` call, the
destruction of a pipeline, or a `snapshot` call (which is what sets the
session cursor that `make_hwdevice` hands to a new pipeline). -/
inductive SessionOp where
  | make_hwdevice (p : Nat) (width height : Int) (pix_fmt : pix_fmt_e)
      (o : InitOutcomes) (srv : Created)
  | destroy (p : Nat)
  | snapshot (img : img_d3d_t) (cursor_visible : Bool) (env : SnapshotEnv)

/-- One step: `make_hwdevice` needs an address at which no object is alive
(what the allocator hands out), a destruction needs a live object, a
`snapshot` is always possible.  A step that is not possible gives `none`. -/
def display_vram_t.step (self : display_vram_t) : SessionOp → Option display_vram_t
  | .make_hwdevice p width height pix_fmt o srv =>
      if p ∈ self.live then none
      else some (self.make_hwdevice p width height pix_fmt o srv).2
  | .destroy p =>
      if p ∈ self.live then some (self.destroy p) else none
  | .snapshot img cursor_visible env => some (self.snapshot img cursor_visible env).2

/-- A sequence of steps, first step first. -/
def display_vram_t.run (self : display_vram_t) : List SessionOp → Option display_vram_t
  | [] => some self
  | op :: rest =>
      match self.step op with
      | none => none
      | some s => s.run rest

/-- A session right after its own initialisation: no cursor, no pipeline. -/
def display_vram_t.initial (device : Handle) (width height : Int) : display_vram_t :=
  { device := device, width := width, height := height, cursor := ⟨0, 0, 0⟩, hwdevices := [],
    objects := [], device_ctx := [], visits := [] }

/-- The registry invariant: no address is registered twice, and every
registered address holds a live object. -/
def RegistryInv (s : display_vram_t) : Prop :=
  s.hwdevices.Nodup ∧ ∀ q ∈ s.hwdevices, q ∈ s.live

/-! ## Concrete inputs used in the evaluations below -/

/-- The status `E_FAIL`. -/
def E_FAIL : HRESULT := -2147467259

/-- Creation outcomes in which every call succeeds, with pairwise distinct
non-null pointers. -/
def okOutcomes : InitOutcomes :=
  { merge_Y_vs := ⟨0, 101⟩, merge_Y_ps := ⟨0, 102⟩, merge_UV_ps := ⟨0, 103⟩,
    merge_UV_vs := ⟨0, 104⟩, scene_ps := ⟨0, 105⟩, blend_disable := ⟨0, 106⟩,
    blend_enable := ⟨0, 107⟩, scene_tex := ⟨0, 108⟩, scene_sr := ⟨0, 109⟩,
    scene_rt := ⟨0, 110⟩, color_matrix := ⟨0, 111⟩, info_scene := ⟨0, 112⟩,
    input_layout := ⟨0, 113⟩, out_tex := ⟨0, 114⟩, nv12_Y_rt := ⟨0, 115⟩,
    nv12_UV_rt := ⟨0, 116⟩, sampler_linear := ⟨0, 117⟩ }

/-- A pipeline initialised for a 1920x1080 input and a 1280x720 output with
`okOutcomes`. -/
def pipeline720 : hwdevice_t :=
  (hwdevice_t.constructed.init 1 1920 1080 1280 720 pix_fmt_e.nv12 okOutcomes).2.1

/-- A pipeline initialised for a 1920x1080 input and a 1280x1024 output with
`okOutcomes`: the output does not keep the aspect ratio of the input. -/
def pipeline1024 : hwdevice_t :=
  (hwdevice_t.constructed.init 1 1920 1080 1280 1024 pix_fmt_e.nv12 okOutcomes).2.1

/-- A captured frame whose shader view exists. -/
def frameImg : img_d3d_t :=
  { input_res := 201, texture := 200, data := 200, width := 1920, height := 1080,
    row_pitch := 7680, pixel_pitch := 4 }

/-- A session with one registered pipeline at address `4096`. -/
def session1 : display_vram_t :=
  { device := 1, width := 1920, height := 1080, cursor := ⟨0, 0, 0⟩,
    hwdevices := [4096], objects := [(4096, pipeline720)], device_ctx := [], visits := [] }

/-- A `snapshot` environment delivering a new pointer shape: a 1x1 `COLOR`
shape of 4 bytes, with every creation succeeding. -/
def shapeEnv : SnapshotEnv :=
  { capture_status := capture_e.ok,
    frame_info := ⟨0, 0, 0, ⟨0, 0, false⟩, 4⟩,
    res_p := 300, shape_status := 0, img_data := [0, 0, 0, 0xFF],
    shape_info := ⟨ShapeType.COLOR, 1, 1, 4⟩,
    cursor_tex := ⟨0, 301⟩, cursor_srv := fun _ => ⟨0, 302⟩, src := ⟨0, 303⟩ }

/-- A `snapshot` sets the session cursor; a `make_hwdevice` whose
`set_cursor_texture` fails follows, then two that succeed, then a `snapshot`
with a new shape whose `set_cursor_texture` fails on the first pipeline. -/
def opsCursor : List SessionOp :=
  [ SessionOp.snapshot frameImg true shapeEnv,
    SessionOp.make_hwdevice 4096 1280 720 pix_fmt_e.nv12 okOutcomes ⟨E_FAIL, 0⟩,
    SessionOp.make_hwdevice 8192 1280 720 pix_fmt_e.nv12 okOutcomes ⟨0, 401⟩,
    SessionOp.make_hwdevice 12288 640 360 pix_fmt_e.nv12 okOutcomes ⟨0, 402⟩,
    SessionOp.snapshot frameImg true { shapeEnv with cursor_srv := fun _ => ⟨E_FAIL, 0⟩ } ]

/-- The session `opsCursor` leads to from an empty one. -/
def sessionCursor : display_vram_t :=
  ((display_vram_t.initial 1 1920 1080).run opsCursor).getD (display_vram_t.initial 1 1920 1080)

/-- A `snapshot` environment reporting a successful acquisition in which
nothing changed. -/
def idleEnv : SnapshotEnv :=
  { capture_status := capture_e.ok,
    frame_info := ⟨0, 0, 0, ⟨0, 0, false⟩, 0⟩,
    res_p := 300, shape_status := 0, img_data := [],
    shape_info := ⟨ShapeType.COLOR, 0, 0, 0⟩,
    cursor_tex := ⟨0, 301⟩, cursor_srv := fun _ => ⟨0, 302⟩, src := ⟨0, 303⟩ }

end Sunshine

/-! # Properties -/

namespace Sunshine

/-! ## Pointer-shape decoding -/

theorem and_top_byte (p : Nat) : p &&& 0xFF000000 = 0 ↔ p / 16777216 % 256 = 0 := by
  have hm : ∀ j, (0xFF000000 : Nat).testBit j = (decide (24 ≤ j) && decide (j < 32)) := by
    intro j
    by_cases h : j < 32
    · interval_cases j <;> rfl
    · have : (0xFF000000 : Nat) < 2 ^ j :=
        lt_of_lt_of_le (by norm_num) (Nat.pow_le_pow_right (by norm_num) (not_lt.mp h))
      simp [Nat.testBit_lt_two_pow this, h]
  have hx : ∀ j, (p / 16777216 % 256).testBit j = (decide (j < 8) && p.testBit (24 + j)) := by
    intro j
    have : (p / 16777216 % 256) = (p >>> 24) % 2 ^ 8 := by
      rw [Nat.shiftRight_eq_div_pow]; norm_num
    rw [this, Nat.testBit_mod_two_pow, Nat.testBit_shiftRight]
  constructor
  · intro h
    apply Nat.eq_of_testBit_eq
    intro j
    rw [hx, Nat.zero_testBit]
    by_cases hj : j < 8
    · have := congrArg (fun n => n.testBit (24 + j)) h
      simp only [Nat.testBit_and, hm, Nat.zero_testBit] at this
      have h1 : 24 ≤ 24 + j := by omega
      have h2 : 24 + j < 32 := by omega
      simpa [h1, h2, hj] using this
    · simp [hj]
  · intro h
    apply Nat.eq_of_testBit_eq
    intro j
    rw [Nat.testBit_and, hm, Nat.zero_testBit]
    by_cases h1 : 24 ≤ j
    · by_cases h2 : j < 32
      · have := congrArg (fun n => n.testBit (j - 24)) h
        simp only [hx, Nat.zero_testBit] at this
        have h3 : j - 24 < 8 := by omega
        have h4 : 24 + (j - 24) = j := by omega
        simp [h3, h4] at this
        simp [this]
      · simp [h2]
    · simp [h1]

theorem maskedColorPass_length : ∀ d : List Nat, (maskedColorPass d).length = d.length
  | [] => by simp [maskedColorPass]
  | [_] => by simp [maskedColorPass]
  | [_, _] => by simp [maskedColorPass]
  | [_, _, _] => by simp [maskedColorPass]
  | b0 :: b1 :: b2 :: b3 :: rest => by
      have ih := maskedColorPass_length rest
      unfold maskedColorPass
      split <;> simp [storePixel, ih]

theorem pixelAt_cons4 (a b c e : Nat) (t : List Nat) (i : Nat) :
    pixelAt (a :: b :: c :: e :: t) (i + 1) = pixelAt t i := by
  have h0 : 4 * (i + 1) = 4 * i + 4 := by ring
  have h1 : 4 * (i + 1) + 1 = 4 * i + 1 + 4 := by ring
  have h2 : 4 * (i + 1) + 2 = 4 * i + 2 + 4 := by ring
  have h3 : 4 * (i + 1) + 3 = 4 * i + 3 + 4 := by ring
  simp only [pixelAt, h0, h1, h2, h3, List.getD_cons_succ]

theorem pixelAt_maskedColorPass :
    ∀ (d : List Nat) (i : Nat), 4 * i + 3 < d.length →
      pixelAt (maskedColorPass d) i =
        if pixelAt d i &&& 0xFF000000 ≠ 0 then transparent else pixelAt d i
  | [], _, h => by simp at h
  | [_], _, h => by simp only [List.length_cons, List.length_nil] at h; omega
  | [_, _], _, h => by simp only [List.length_cons, List.length_nil] at h; omega
  | [_, _, _], _, h => by simp only [List.length_cons, List.length_nil] at h; omega
  | b0 :: b1 :: b2 :: b3 :: rest, 0, _ => by
      have hd : pixelAt (b0 :: b1 :: b2 :: b3 :: rest) 0 = loadPixel b0 b1 b2 b3 := by
        simp [pixelAt]
      unfold maskedColorPass
      rw [hd]
      by_cases hp : loadPixel b0 b1 b2 b3 &&& 0xFF000000 ≠ 0
      · rw [if_pos hp, if_pos hp]
        simp [pixelAt, storePixel, loadPixel, transparent]
      · rw [if_neg hp, if_neg hp]
        simp [pixelAt]
  | b0 :: b1 :: b2 :: b3 :: rest, i + 1, h => by
      have ih := pixelAt_maskedColorPass rest i (by simp at h; omega)
      unfold maskedColorPass
      rw [pixelAt_cons4 b0 b1 b2 b3 rest i]
      by_cases hp : loadPixel b0 b1 b2 b3 &&& 0xFF000000 ≠ 0
      · rw [if_pos hp]
        simpa [storePixel, pixelAt_cons4] using ih
      · rw [if_neg hp]
        simpa [pixelAt_cons4] using ih

/-- C4: for a `MASKED_COLOR` shape `make_cursor_image` returns a buffer of the
length of its input in which every whole 32-bit pixel whose top byte (bits
24..31) is non-zero in the input is `0x00000000`, and every other pixel has
the value it has in the input. -/
theorem make_cursor_image_masked_color (img_data : List Nat) (Width Height Pitch : Nat)
    (hlen : img_data.length % 4 = 0) :
    (make_cursor_image img_data ⟨ShapeType.MASKED_COLOR, Width, Height, Pitch⟩).length
        = img_data.length ∧
    ∀ i, i < img_data.length / 4 →
      pixelAt (make_cursor_image img_data ⟨ShapeType.MASKED_COLOR, Width, Height, Pitch⟩) i
        = if pixelAt img_data i / 16777216 % 256 ≠ 0 then 0x00000000 else pixelAt img_data i := by
  refine ⟨by simp [make_cursor_image, maskedColorPass_length], ?_⟩
  intro i hi
  have h := pixelAt_maskedColorPass img_data i (by omega)
  have e := and_top_byte (pixelAt img_data i)
  simp only [make_cursor_image]
  rw [h]
  by_cases hz : pixelAt img_data i / 16777216 % 256 = 0
  · simp [hz, e.mpr hz]
  · have : pixelAt img_data i &&& 0xFF000000 ≠ 0 := fun h0 => hz (e.mp h0)
    simp [hz, this, transparent]

/-- Witness for C4: a two-pixel buffer whose first pixel has top byte `0x80`
and whose second pixel has top byte `0`. -/
theorem make_cursor_image_masked_color_witness :
    [1, 2, 3, 0x80, 4, 5, 6, 0].length % 4 = 0 ∧
    (make_cursor_image [1, 2, 3, 0x80, 4, 5, 6, 0] ⟨ShapeType.MASKED_COLOR, 2, 1, 8⟩).length
        = [1, 2, 3, 0x80, 4, 5, 6, 0].length ∧
    pixelAt (make_cursor_image [1, 2, 3, 0x80, 4, 5, 6, 0] ⟨ShapeType.MASKED_COLOR, 2, 1, 8⟩) 0
        = 0x00000000 ∧
    pixelAt (make_cursor_image [1, 2, 3, 0x80, 4, 5, 6, 0] ⟨ShapeType.MASKED_COLOR, 2, 1, 8⟩) 1
        = pixelAt [1, 2, 3, 0x80, 4, 5, 6, 0] 1 :=
  ⟨by decide,
   (make_cursor_image_masked_color [1, 2, 3, 0x80, 4, 5, 6, 0] 2 1 8 (by decide)).1,
   ((make_cursor_image_masked_color [1, 2, 3, 0x80, 4, 5, 6, 0] 2 1 8 (by decide)).2 0
      (by decide)).trans (by decide),
   ((make_cursor_image_masked_color [1, 2, 3, 0x80, 4, 5, 6, 0] 2 1 8 (by decide)).2 1
      (by decide)).trans (by decide)⟩

/-- C1 (failing input): a monochrome shape of width 2, input height 4 and
pitch 1 whose AND mask is `0x00, 0x80` and whose XOR mask is zero.  Under a
row stride of one byte pixel `(1, 0)` has AND bit 1 and XOR bit 0, yet the
returned image holds opaque black there, and the scan stores to pixel
indices 4 to 15 of a buffer of 4 pixels. -/
theorem make_cursor_image_ignores_row_padding :
    maskBit [0x00, 0x80, 0x00, 0x00] 0 1 1 0 = true ∧
    maskBit [0x00, 0x80, 0x00, 0x00] 2 1 1 0 = false ∧
    imagePixel (make_cursor_image [0x00, 0x80, 0x00, 0x00] ⟨ShapeType.MONOCHROME, 2, 4, 1⟩)
      2 1 0 = black ∧
    (monochromeScan [0x00, 0x80, 0x00, 0x00] ⟨ShapeType.MONOCHROME, 2, 4, 1⟩).cursor_img.length
      = 4 ∧
    (monochromeScan [0x00, 0x80, 0x00, 0x00] ⟨ShapeType.MONOCHROME, 2, 4, 1⟩).writes
      = [15, 14, 13, 12, 11, 10, 9, 8, 7, 6, 5, 4, 3, 2, 1, 0] := by
  decide

/-- C2 (counterexample): for the shape of width 2, input height 4 and pitch 1
with AND rows `0xFF` and XOR rows `0x00` it is not the case that the decoded
image has 16 bytes with every pixel opaque black: every mask bit of this
input has colour type 1, for which the scan stores `transparent`. -/
theorem make_cursor_image_and_ff_not_black :
    ¬ ((make_cursor_image [0xFF, 0xFF, 0x00, 0x00] ⟨ShapeType.MONOCHROME, 2, 4, 1⟩).length = 16 ∧
       ∀ r < 2, ∀ c < 2,
        imagePixel (make_cursor_image [0xFF, 0xFF, 0x00, 0x00] ⟨ShapeType.MONOCHROME, 2, 4, 1⟩)
          2 r c = 0xFF000000) := by
  decide

/-- C3 (failing input): an 8x2 monochrome shape (pitch 1) whose pixel `(0, 0)`
is inverse and whose pixels `(0, 1)` and `(1, 0)` have AND bit 1 and XOR bit
0.  The scan stores black to both neighbours while it visits `(0, 0)`, and
both are fully transparent in the returned image. -/
theorem make_cursor_image_inverse_leaves_transparent :
    maskBit [0xC0, 0x80, 0x80, 0x00] 0 1 0 0 = true ∧
    maskBit [0xC0, 0x80, 0x80, 0x00] 2 1 0 0 = true ∧
    maskBit [0xC0, 0x80, 0x80, 0x00] 0 1 0 1 = true ∧
    maskBit [0xC0, 0x80, 0x80, 0x00] 2 1 0 1 = false ∧
    maskBit [0xC0, 0x80, 0x80, 0x00] 0 1 1 0 = true ∧
    maskBit [0xC0, 0x80, 0x80, 0x00] 2 1 1 0 = false ∧
    (visitPixel 8 3 ⟨List.replicate 16 0, 0, []⟩).cursor_img
      = [white, black, 0, 0, 0, 0, 0, 0, black, 0, 0, 0, 0, 0, 0, 0] ∧
    imagePixel (make_cursor_image [0xC0, 0x80, 0x80, 0x00] ⟨ShapeType.MONOCHROME, 8, 4, 1⟩)
      8 0 1 = transparent ∧
    imagePixel (make_cursor_image [0xC0, 0x80, 0x80, 0x00] ⟨ShapeType.MONOCHROME, 8, 4, 1⟩)
      8 1 0 = transparent := by
  decide

/-! ### The monochrome scan in closed form -/

theorem range'_eight (b : Nat) :
    List.range' b 8 = [b, b + 1, b + 2, b + 3, b + 4, b + 5, b + 6, b + 7] := rfl

theorem bitLoop_eq (Width : Nat) (img_data : List Nat) (bytes x : Nat) (s : Scan) :
    bitLoop Width (img_data.getD x 0) (img_data.getD (bytes + x) 0) 8 s =
      scanPixels Width (ctAt img_data bytes) (List.range' (8 * x) 8) s := by
  have d0 : 8 * x / 8 = x := by omega
  have d1 : (8 * x + 1) / 8 = x := by omega
  have d2 : (8 * x + 2) / 8 = x := by omega
  have d3 : (8 * x + 3) / 8 = x := by omega
  have d4 : (8 * x + 4) / 8 = x := by omega
  have d5 : (8 * x + 5) / 8 = x := by omega
  have d6 : (8 * x + 6) / 8 = x := by omega
  have d7 : (8 * x + 7) / 8 = x := by omega
  have m0 : 8 * x % 8 = 0 := by omega
  have m1 : (8 * x + 1) % 8 = 1 := by omega
  have m2 : (8 * x + 2) % 8 = 2 := by omega
  have m3 : (8 * x + 3) % 8 = 3 := by omega
  have m4 : (8 * x + 4) % 8 = 4 := by omega
  have m5 : (8 * x + 5) % 8 = 5 := by omega
  have m6 : (8 * x + 6) % 8 = 6 := by omega
  have m7 : (8 * x + 7) % 8 = 7 := by omega
  rw [range'_eight]
  simp only [bitLoop, scanPixels, ctAt, List.foldl_cons, List.foldl_nil,
    d0, d1, d2, d3, d4, d5, d6, d7, m0, m1, m2, m3, m4, m5, m6, m7]

theorem scanPixels_append (Width : Nat) (ct : Nat → Nat) (l₁ l₂ : List Nat) (s : Scan) :
    scanPixels Width ct (l₁ ++ l₂) s = scanPixels Width ct l₂ (scanPixels Width ct l₁ s) := by
  simp [scanPixels, List.foldl_append]

theorem byteLoop_eq (Width bytes : Nat) (img_data : List Nat) :
    ∀ (n x : Nat) (s : Scan),
      byteLoop Width bytes img_data n x s =
        scanPixels Width (ctAt img_data bytes) (List.range' (8 * x) (8 * n)) s := by
  intro n
  induction n with
  | zero => intro x s; simp [byteLoop, scanPixels]
  | succ n ih =>
      intro x s
      have hsplit : List.range' (8 * x) (8 * (n + 1)) =
          List.range' (8 * x) 8 ++ List.range' (8 * (x + 1)) (8 * n) := by
        have h1 : 8 * (n + 1) = 8 * n + 8 := by ring
        have h2 : 8 * (x + 1) = 8 * x + 8 := by ring
        rw [h1, h2, List.range'_append_1]
      rw [byteLoop, ih, bitLoop_eq, hsplit, scanPixels_append]

theorem Scan.load_store (s : Scan) (i v q : Nat) :
    (s.store i v).load q = if q = i ∧ i < s.cursor_img.length then v else s.load q := by
  unfold Scan.store Scan.load
  by_cases hq : q = i
  · subst hq
    by_cases hl : q < s.cursor_img.length
    · simp [hl, List.getD_eq_getElem?_getD, List.getElem?_set_self]
    · simp [hl, List.getD_eq_getElem?_getD]
      rw [List.getElem?_eq_none (by simpa using hl), List.getElem?_eq_none (by simpa using hl)]
  · have hq' : i ≠ q := fun h => hq h.symm
    simp [hq, List.getD_eq_getElem?_getD, List.getElem?_set_ne hq']

@[simp] theorem Scan.length_store (s : Scan) (i v : Nat) :
    (s.store i v).cursor_img.length = s.cursor_img.length := by
  simp [Scan.store]

@[simp] theorem Scan.pixel_data_store (s : Scan) (i v : Nat) :
    (s.store i v).pixel_data = s.pixel_data := rfl

theorem Scan.load_ite_store (c : Prop) [Decidable c] (s : Scan) (i v q : Nat) :
    (if c then s.store i v else s).load q =
      if c ∧ q = i ∧ i < s.cursor_img.length then v else s.load q := by
  by_cases hc : c
  · simp only [hc, if_true, Scan.load_store, true_and]
  · simp only [hc, if_false, false_and]

@[simp] theorem Scan.length_ite_store (c : Prop) [Decidable c] (s : Scan) (i v : Nat) :
    (if c then s.store i v else s).cursor_img.length = s.cursor_img.length := by
  by_cases hc : c <;> simp [hc]

@[simp] theorem Scan.pixel_data_ite_store (c : Prop) [Decidable c] (s : Scan) (i v : Nat) :
    (if c then s.store i v else s).pixel_data = s.pixel_data := by
  by_cases hc : c <;> simp [hc]

theorem inverseCase_length (W : Nat) (s : Scan) :
    (inverseCase W s).cursor_img.length = s.cursor_img.length := by
  unfold inverseCase
  simp only [Scan.length_store, Scan.length_ite_store]

theorem inverseCase_pixel_data (W : Nat) (s : Scan) :
    (inverseCase W s).pixel_data = s.pixel_data := by
  unfold inverseCase
  simp only [Scan.pixel_data_store, Scan.pixel_data_ite_store]

theorem black_ne_transparent : black ≠ transparent := by decide

theorem white_ne_transparent : white ≠ transparent := by decide

theorem bleed_combine (A B : Prop) [Decidable A] [Decidable B] (x : Nat) :
    (if B ∧ (if A ∧ x = transparent then black else x) = transparent then black
     else (if A ∧ x = transparent then black else x)) =
      if (A ∨ B) ∧ x = transparent then black else x := by
  by_cases hA : A <;> by_cases hB : B <;> by_cases hx : x = transparent <;>
    simp [hA, hB, hx, black_ne_transparent]

theorem inverseCase_load (W : Nat) (s : Scan) (q : Nat) (hW : 0 < W)
    (hq : q ≤ s.pixel_data) (hL : q < s.cursor_img.length) :
    (inverseCase W s).load q =
      if q = s.pixel_data then white
      else if (q + W = s.pixel_data ∨ (q + 1 = s.pixel_data ∧ s.pixel_data % W ≠ 0)) ∧
                s.load q = transparent then black
      else s.load q := by
  unfold inverseCase
  simp only []
  generalize hp : s.pixel_data = p at hq ⊢
  -- the state after the store above
  generalize hs1 : (if W ≤ p ∧ s.load (p - W) = transparent
      then s.store (p - W) black else s) = s1
  have len1 : s1.cursor_img.length = s.cursor_img.length := by
    rw [← hs1]; exact Scan.length_ite_store _ _ _ _
  have load1 : s1.load q = if q + W = p ∧ s.load q = transparent then black else s.load q := by
    rw [← hs1, Scan.load_ite_store]
    refine if_congr ⟨?_, ?_⟩ rfl rfl
    · rintro ⟨⟨_, hload⟩, hqe, _⟩
      exact ⟨by omega, by rw [hqe]; exact hload⟩
    · rintro ⟨hT, h0⟩
      have e : q = p - W := by omega
      exact ⟨⟨by omega, by rw [← e]; exact h0⟩, e, by omega⟩
  -- the state after the store to the left
  generalize hs2 : (if (if p % W ≠ 0 then 1 else 0) ≠ 0 ∧ 1 ≤ p ∧ s1.load (p - 1) = transparent
      then s1.store (p - 1) black else s1) = s2
  have len2 : s2.cursor_img.length = s.cursor_img.length := by
    rw [← hs2, Scan.length_ite_store, len1]
  have load2 : s2.load q =
      if (q + 1 = p ∧ p % W ≠ 0) ∧ s1.load q = transparent then black else s1.load q := by
    rw [← hs2, Scan.load_ite_store]
    refine if_congr ⟨?_, ?_⟩ rfl rfl
    · rintro ⟨⟨hcol, _, hload⟩, hqe, _⟩
      refine ⟨⟨by omega, ?_⟩, by rw [hqe]; exact hload⟩
      intro h0
      simp [h0] at hcol
    · rintro ⟨⟨hT, hm⟩, h0⟩
      have e : q = p - 1 := by omega
      refine ⟨⟨by simp [hm], by omega, by rw [← e]; exact h0⟩, e, by rw [len1]; omega⟩
  -- the stores below and to the right leave pixel `q` alone
  generalize hs3 : (if p + W < s2.cursor_img.length then s2.store (p + W) black else s2) = s3
  have len3 : s3.cursor_img.length = s.cursor_img.length := by
    rw [← hs3, Scan.length_ite_store, len2]
  have load3 : s3.load q = s2.load q := by
    rw [← hs3, Scan.load_ite_store, if_neg]
    rintro ⟨_, hqe, _⟩
    omega
  generalize hs4 : (if (if p % W ≠ 0 then 1 else 0) ≠ (W + 4294967295) % 4294967296
      then s3.store (p + 1) black else s3) = s4
  have len4 : s4.cursor_img.length = s.cursor_img.length := by
    rw [← hs4, Scan.length_ite_store, len3]
  have load4 : s4.load q = s3.load q := by
    rw [← hs4, Scan.load_ite_store, if_neg]
    rintro ⟨_, hqe, _⟩
    omega
  rw [Scan.load_store, len4]
  by_cases hqp : q = p
  · subst hqp
    simp [hL]
  · rw [if_neg (fun h => hqp h.1), if_neg hqp, load4, load3, load2, load1]
    exact bleed_combine _ _ _

theorem visitedValue_self (W : Nat) (ct : Nat → Nat) (k : Nat) (hW : 0 < W) :
    visitedValue W ct (k + 1) k =
      if ct k = 0 then black else if ct k = 2 then white
      else if ct k = 1 then transparent else white := by
  unfold visitedValue
  have h1 : ¬ (k + W < k + 1) := by omega
  have h2 : ¬ (k + 1 < k + 1) := by omega
  simp [h1, h2]

theorem visitedValue_succ_plain (W : Nat) (ct : Nat → Nat) (k q : Nat) (hk : ct k < 3) :
    visitedValue W ct (k + 1) q = visitedValue W ct k q := by
  unfold visitedValue
  have hA : (q + W < k + 1 ∧ 3 ≤ ct (q + W)) ↔ (q + W < k ∧ 3 ≤ ct (q + W)) := by
    constructor
    · rintro ⟨h1, h2⟩
      refine ⟨?_, h2⟩
      rcases Nat.lt_or_ge (q + W) k with h | h
      · exact h
      · have : q + W = k := by omega
        rw [this] at h2; omega
    · rintro ⟨h1, h2⟩; exact ⟨by omega, h2⟩
  have hB : (q + 1 < k + 1 ∧ (q + 1) % W ≠ 0 ∧ 3 ≤ ct (q + 1)) ↔
      (q + 1 < k ∧ (q + 1) % W ≠ 0 ∧ 3 ≤ ct (q + 1)) := by
    constructor
    · rintro ⟨h1, h2, h3⟩
      refine ⟨?_, h2, h3⟩
      rcases Nat.lt_or_ge (q + 1) k with h | h
      · exact h
      · have : q + 1 = k := by omega
        rw [this] at h3; omega
    · rintro ⟨h1, h2, h3⟩; exact ⟨by omega, h2, h3⟩
  simp only [hA, hB]

theorem visitedValue_of_one (W : Nat) (ct : Nat → Nat) (k q : Nat) (h : ct q = 1) :
    visitedValue W ct k q =
      if (q + W < k ∧ 3 ≤ ct (q + W)) ∨ (q + 1 < k ∧ (q + 1) % W ≠ 0 ∧ 3 ≤ ct (q + 1))
      then black else transparent := by
  simp [visitedValue, h]

theorem visitedValue_of_ne_one (W : Nat) (ct : Nat → Nat) (k q : Nat) (h : ct q ≠ 1) :
    visitedValue W ct k q = if ct q = 0 then black else white := by
  unfold visitedValue
  by_cases c0 : ct q = 0
  · simp [c0]
  · by_cases c2 : ct q = 2
    · simp [c2]
    · simp [c0, c2, h]

theorem visitedValue_succ_inverse (W : Nat) (ct : Nat → Nat) (k q : Nat) (hk : 3 ≤ ct k)
    (hq : q < k) :
    visitedValue W ct (k + 1) q =
      if (q + W = k ∨ (q + 1 = k ∧ k % W ≠ 0)) ∧ visitedValue W ct k q = transparent
      then black else visitedValue W ct k q := by
  by_cases c1 : ct q = 1
  · rw [visitedValue_of_one W ct (k + 1) q c1, visitedValue_of_one W ct k q c1]
    by_cases hold : (q + W < k ∧ 3 ≤ ct (q + W)) ∨ (q + 1 < k ∧ (q + 1) % W ≠ 0 ∧ 3 ≤ ct (q + 1))
    · have hnew : (q + W < k + 1 ∧ 3 ≤ ct (q + W)) ∨
          (q + 1 < k + 1 ∧ (q + 1) % W ≠ 0 ∧ 3 ≤ ct (q + 1)) := by
        rcases hold with ⟨h1, h2⟩ | ⟨h1, h2, h3⟩
        · exact Or.inl ⟨by omega, h2⟩
        · exact Or.inr ⟨by omega, h2, h3⟩
      rw [if_pos hnew, if_pos hold]
      simp [black_ne_transparent]
    · rw [if_neg hold]
      refine if_congr ⟨?_, ?_⟩ rfl rfl
      · rintro (⟨h1, h2⟩ | ⟨h1, h2, h3⟩)
        · rcases Nat.lt_or_ge (q + W) k with h | h
          · exact absurd (Or.inl ⟨h, h2⟩) hold
          · exact ⟨Or.inl (by omega), rfl⟩
        · rcases Nat.lt_or_ge (q + 1) k with h | h
          · exact absurd (Or.inr ⟨h, h2, h3⟩) hold
          · have e : q + 1 = k := by omega
            exact ⟨Or.inr ⟨e, by rw [← e]; exact h2⟩, rfl⟩
      · rintro ⟨h | ⟨h1, h2⟩, _⟩
        · exact Or.inl ⟨by omega, by rw [h]; exact hk⟩
        · exact Or.inr ⟨by omega, by rw [h1]; exact h2, by rw [h1]; exact hk⟩
  · rw [visitedValue_of_ne_one W ct (k + 1) q c1, visitedValue_of_ne_one W ct k q c1]
    by_cases c0 : ct q = 0
    · simp [c0, black_ne_transparent]
    · simp [c0, white_ne_transparent]

theorem ScanInv.visit {W : Nat} {ct : Nat → Nat} {L k : Nat} {s : Scan} (hW : 0 < W)
    (hct : ∀ i, ct i ≤ 3) (h : ScanInv W ct L k s) :
    ScanInv W ct L (k + 1) (visitPixel W (ct k) s) := by
  have hk := hct k
  have hcases : ct k = 0 ∨ ct k = 1 ∨ ct k = 2 ∨ ct k = 3 := by omega
  have plain : ∀ v, ct k < 3 →
      (visitedValue W ct (k + 1) k = v) →
      ScanInv W ct L (k + 1) { (s.store s.pixel_data v) with
        pixel_data := (s.store s.pixel_data v).pixel_data + 1 } := by
    intro v hlt hv
    refine ⟨by simp [h.pos], by simp [h.len], ?_⟩
    intro q hq hqL
    have hload : ({ (s.store s.pixel_data v) with
        pixel_data := (s.store s.pixel_data v).pixel_data + 1 } : Scan).load q
          = (s.store s.pixel_data v).load q := rfl
    rw [hload, Scan.load_store, h.pos, h.len]
    by_cases hqk : q = k
    · subst hqk
      simp [hqL, hv]
    · rw [if_neg (fun hh => hqk hh.1), visitedValue_succ_plain W ct k q hlt]
      exact h.val q (by omega) hqL
  rcases hcases with c | c | c | c
  · have := plain black (by omega) (by rw [visitedValue_self W ct k hW]; simp [c])
    simpa [visitPixel, c] using this
  · have := plain transparent (by omega) (by rw [visitedValue_self W ct k hW]; simp [c])
    simpa [visitPixel, c] using this
  · have := plain white (by omega) (by rw [visitedValue_self W ct k hW]; simp [c])
    simpa [visitPixel, c] using this
  · have hv : visitPixel W (ct k) s =
        { (inverseCase W s) with pixel_data := (inverseCase W s).pixel_data + 1 } := by
      simp [visitPixel, c]
    rw [hv]
    refine ⟨by simp [inverseCase_pixel_data, h.pos], by simp [inverseCase_length, h.len], ?_⟩
    intro q hq hqL
    have hload : ({ (inverseCase W s) with
        pixel_data := (inverseCase W s).pixel_data + 1 } : Scan).load q
          = (inverseCase W s).load q := rfl
    rw [hload, inverseCase_load W s q hW (by rw [h.pos]; omega) (by rw [h.len]; exact hqL), h.pos]
    by_cases hqk : q = k
    · subst hqk
      rw [if_pos rfl, visitedValue_self W ct q hW]
      simp [c]
    · have hlt : q < k := by omega
      rw [if_neg hqk, visitedValue_succ_inverse W ct k q (by omega) hlt, h.val q hlt hqL]

theorem scanPixels_range_succ (W : Nat) (ct : Nat → Nat) (n : Nat) (s : Scan) :
    scanPixels W ct (List.range (n + 1)) s = visitPixel W (ct n) (scanPixels W ct (List.range n) s) := by
  rw [List.range_succ, scanPixels_append]
  rfl

theorem ScanInv.scan {W : Nat} {ct : Nat → Nat} (hW : 0 < W) (hct : ∀ i, ct i ≤ 3) (L : Nat) :
    ∀ n, ScanInv W ct L n
      (scanPixels W ct (List.range n)
        { cursor_img := List.replicate L 0, pixel_data := 0, writes := [] }) := by
  intro n
  induction n with
  | zero =>
      refine ⟨rfl, by simp [scanPixels], ?_⟩
      intro q hq; omega
  | succ n ih =>
      rw [scanPixels_range_succ]
      exact ih.visit hW hct

theorem colorType_le (a x c : Nat) : colorType a x c ≤ 3 := by
  unfold colorType
  split_ifs <;> omega

theorem ctAt_le (img_data : List Nat) (bytes i : Nat) : ctAt img_data bytes i ≤ 3 :=
  colorType_le _ _ _

theorem monochromeScan_eq (img_data : List Nat) (shape_info : DXGI_OUTDUPL_POINTER_SHAPE_INFO) :
    monochromeScan img_data shape_info =
      scanPixels shape_info.Width
        (ctAt img_data (shape_info.Pitch * (shape_info.Height / 2) % 4294967296))
        (List.range (8 * (shape_info.Pitch * (shape_info.Height / 2) % 4294967296)))
        { cursor_img :=
            List.replicate (shape_info.Width * (shape_info.Height / 2) * 4 % 4294967296 / 4) 0,
          pixel_data := 0, writes := [] } := by
  unfold monochromeScan
  simp only []
  rw [byteLoop_eq, List.range_eq_range']

theorem loadPixel_storePixel (p : Nat) :
    loadPixel (p % 256) (p / 256 % 256) (p / 65536 % 256) (p / 16777216 % 256)
      = p % 4294967296 := by
  unfold loadPixel
  omega

theorem pixelAt_storePixels :
    ∀ (l : List Nat) (i : Nat),
      pixelAt ((l.map storePixel).flatten) i = l.getD i 0 % 4294967296
  | [], i => by simp [pixelAt, loadPixel]
  | p :: rest, 0 => by
      simp [pixelAt, storePixel]
      exact loadPixel_storePixel p
  | p :: rest, i + 1 => by
      have ih := pixelAt_storePixels rest i
      simp only [List.map_cons, List.flatten_cons, storePixel, List.cons_append, List.nil_append,
        pixelAt_cons4, List.getD_cons_succ]
      simpa [storePixel] using ih

theorem visitedValue_lt (W : Nat) (ct : Nat → Nat) (k q : Nat) :
    visitedValue W ct k q < 4294967296 := by
  unfold visitedValue black white transparent
  split_ifs <;> omega

/-- The image `make_cursor_image` returns for a monochrome shape whose rows
have no padding (`Width = 8 * Pitch`) and whose buffer size fits 32 bits:
pixel `q` holds `visitedValue` after all `Width * (Height / 2)` slots. -/
theorem make_cursor_image_monochrome_closed_form (img_data : List Nat)
    (shape_info : DXGI_OUTDUPL_POINTER_SHAPE_INFO)
    (hT : shape_info.Type_ = ShapeType.MONOCHROME)
    (hW : shape_info.Width = 8 * shape_info.Pitch)
    (hsize : shape_info.Width * (shape_info.Height / 2) * 4 < 4294967296)
    (q : Nat) (hq : q < shape_info.Width * (shape_info.Height / 2)) :
    pixelAt (make_cursor_image img_data shape_info) q =
      visitedValue shape_info.Width
        (ctAt img_data (shape_info.Pitch * (shape_info.Height / 2)))
        (shape_info.Width * (shape_info.Height / 2)) q := by
  have hpos : 0 < shape_info.Width := by
    rcases Nat.eq_zero_or_pos shape_info.Width with h | h
    · rw [h] at hq; simp at hq
    · exact h
  have hbytes : shape_info.Pitch * (shape_info.Height / 2) % 4294967296 =
      shape_info.Pitch * (shape_info.Height / 2) := by
    apply Nat.mod_eq_of_lt
    have : shape_info.Width * (shape_info.Height / 2) =
        8 * (shape_info.Pitch * (shape_info.Height / 2)) := by rw [hW]; ring
    omega
  have hlen : shape_info.Width * (shape_info.Height / 2) * 4 % 4294967296 / 4 =
      shape_info.Width * (shape_info.Height / 2) := by
    rw [Nat.mod_eq_of_lt hsize]; omega
  have hn : 8 * (shape_info.Pitch * (shape_info.Height / 2)) =
      shape_info.Width * (shape_info.Height / 2) := by rw [hW]; ring
  have hinv := ScanInv.scan hpos (ctAt_le img_data (shape_info.Pitch * (shape_info.Height / 2)))
    (shape_info.Width * (shape_info.Height / 2)) (shape_info.Width * (shape_info.Height / 2))
  have hval := hinv.val q hq hq
  unfold make_cursor_image
  rw [hT]
  simp only []
  rw [pixelAt_storePixels, monochromeScan_eq, hbytes, hlen, hn]
  unfold Scan.load at hval
  rw [hval]
  exact Nat.mod_eq_of_lt (visitedValue_lt _ _ _ _)

theorem and_bit_ne_zero (a c : Nat) : a &&& (1 <<< c) ≠ 0 ↔ a.testBit c = true := by
  rw [Nat.one_shiftLeft, Nat.and_two_pow]
  cases h : a.testBit c <;> simp

theorem colorType_eq (a x c : Nat) :
    colorType a x c = (if a.testBit c = true then 1 else 0) + (if x.testBit c = true then 2 else 0) := by
  unfold colorType
  simp only [and_bit_ne_zero]

theorem ctAt_rowcol (img_data : List Nat) (bytes P r c : Nat) :
    ctAt img_data bytes (r * (8 * P) + c) =
      (if maskBit img_data 0 P r c = true then 1 else 0) +
        (if maskBit img_data bytes P r c = true then 2 else 0) := by
  have hd : (r * (8 * P) + c) / 8 = r * P + c / 8 := by
    have : r * (8 * P) + c = 8 * (r * P) + c := by ring
    rw [this]; omega
  have hm : (r * (8 * P) + c) % 8 = c % 8 := by
    have : r * (8 * P) + c = 8 * (r * P) + c := by ring
    rw [this]; omega
  unfold ctAt maskBit
  rw [colorType_eq, hd, hm]
  simp only [Nat.zero_add, Nat.add_assoc]

theorem visitedValue_ne_transparent (W : Nat) (ct : Nat → Nat) (k q : Nat)
    (h : (q + W < k ∧ 3 ≤ ct (q + W)) ∨ (q + 1 < k ∧ (q + 1) % W ≠ 0 ∧ 3 ≤ ct (q + 1))) :
    visitedValue W ct k q ≠ transparent := by
  by_cases c1 : ct q = 1
  · rw [visitedValue_of_one W ct k q c1, if_pos h]
    exact black_ne_transparent
  · rw [visitedValue_of_ne_one W ct k q c1]
    split_ifs
    · exact black_ne_transparent
    · exact white_ne_transparent

/-- In the image of a monochrome shape without row padding, the neighbour
above an inverse pixel and the neighbour to its left in the same row are
never fully transparent. -/
theorem make_cursor_image_inverse_top_left (img_data : List Nat)
    (shape_info : DXGI_OUTDUPL_POINTER_SHAPE_INFO)
    (hT : shape_info.Type_ = ShapeType.MONOCHROME)
    (hW : shape_info.Width = 8 * shape_info.Pitch)
    (hsize : shape_info.Width * (shape_info.Height / 2) * 4 < 4294967296)
    (r c : Nat) (hr : r < shape_info.Height / 2) (hc : c < shape_info.Width)
    (hand : maskBit img_data 0 shape_info.Pitch r c = true)
    (hxor : maskBit img_data (shape_info.Pitch * (shape_info.Height / 2)) shape_info.Pitch r c
      = true) :
    (0 < r → imagePixel (make_cursor_image img_data shape_info) shape_info.Width (r - 1) c
      ≠ transparent) ∧
    (0 < c → imagePixel (make_cursor_image img_data shape_info) shape_info.Width r (c - 1)
      ≠ transparent) := by
  have hp : r * shape_info.Width + c < shape_info.Width * (shape_info.Height / 2) := by
    have h1 : (r + 1) * shape_info.Width ≤ (shape_info.Height / 2) * shape_info.Width :=
      Nat.mul_le_mul_right _ hr
    have h2 : (r + 1) * shape_info.Width = r * shape_info.Width + shape_info.Width := by ring
    have h3 : (shape_info.Height / 2) * shape_info.Width =
        shape_info.Width * (shape_info.Height / 2) := by ring
    omega
  have hct : 3 ≤ ctAt img_data (shape_info.Pitch * (shape_info.Height / 2))
      (r * shape_info.Width + c) := by
    rw [hW, ctAt_rowcol, if_pos hand, if_pos hxor]
  constructor
  · intro hr0
    have hq : (r - 1) * shape_info.Width + c + shape_info.Width = r * shape_info.Width + c := by
      have : r = (r - 1) + 1 := by omega
      conv_rhs => rw [this]
      ring
    unfold imagePixel
    rw [make_cursor_image_monochrome_closed_form img_data shape_info hT hW hsize _ (by omega)]
    apply visitedValue_ne_transparent
    left
    rw [hq]
    exact ⟨hp, hct⟩
  · intro hc0
    have hq : r * shape_info.Width + (c - 1) + 1 = r * shape_info.Width + c := by omega
    have hmod : (r * shape_info.Width + c) % shape_info.Width ≠ 0 := by
      rw [Nat.mul_comm, Nat.mul_add_mod, Nat.mod_eq_of_lt hc]
      omega
    unfold imagePixel
    rw [make_cursor_image_monochrome_closed_form img_data shape_info hT hW hsize _ (by omega)]
    apply visitedValue_ne_transparent
    right
    rw [hq]
    exact ⟨hp, hmod, hct⟩

/-- In the image of a monochrome shape without row padding and without any
inverse pixel, pixel `(r, c)` is decided by its own two mask bits: AND 0 and
XOR 0 give opaque black, AND 0 and XOR 1 opaque white, AND 1 and XOR 0 full
transparency. -/
theorem make_cursor_image_plain_pixels (img_data : List Nat)
    (shape_info : DXGI_OUTDUPL_POINTER_SHAPE_INFO)
    (hT : shape_info.Type_ = ShapeType.MONOCHROME)
    (hW : shape_info.Width = 8 * shape_info.Pitch)
    (hsize : shape_info.Width * (shape_info.Height / 2) * 4 < 4294967296)
    (hplain : ∀ r c, r < shape_info.Height / 2 → c < shape_info.Width →
      ¬ (maskBit img_data 0 shape_info.Pitch r c = true ∧
         maskBit img_data (shape_info.Pitch * (shape_info.Height / 2)) shape_info.Pitch r c
           = true))
    (r c : Nat) (hr : r < shape_info.Height / 2) (hc : c < shape_info.Width) :
    imagePixel (make_cursor_image img_data shape_info) shape_info.Width r c =
      if maskBit img_data 0 shape_info.Pitch r c = true then transparent
      else if maskBit img_data (shape_info.Pitch * (shape_info.Height / 2)) shape_info.Pitch r c
        = true then white
      else black := by
  have hp : r * shape_info.Width + c < shape_info.Width * (shape_info.Height / 2) := by
    have h1 : (r + 1) * shape_info.Width ≤ (shape_info.Height / 2) * shape_info.Width :=
      Nat.mul_le_mul_right _ hr
    have h2 : (r + 1) * shape_info.Width = r * shape_info.Width + shape_info.Width := by ring
    have h3 : (shape_info.Height / 2) * shape_info.Width =
        shape_info.Width * (shape_info.Height / 2) := by ring
    omega
  have hpos : 0 < shape_info.Width := by omega
  have hlt : ∀ i, i < shape_info.Width * (shape_info.Height / 2) →
      ctAt img_data (shape_info.Pitch * (shape_info.Height / 2)) i < 3 := by
    intro i hi
    have hi' : i = (i / shape_info.Width) * shape_info.Width + i % shape_info.Width := by
      rw [Nat.mul_comm]; exact (Nat.div_add_mod i shape_info.Width).symm
    have hrow : i / shape_info.Width < shape_info.Height / 2 :=
      Nat.div_lt_of_lt_mul hi
    have hcol : i % shape_info.Width < shape_info.Width := Nat.mod_lt _ hpos
    have := hplain _ _ hrow hcol
    rw [hi']
    generalize i / shape_info.Width = r' at this ⊢
    generalize i % shape_info.Width = c' at this ⊢
    rw [hW, ctAt_rowcol]
    split_ifs with h1 h2 <;> first | omega | exact absurd ⟨h1, h2⟩ this
  unfold imagePixel
  rw [make_cursor_image_monochrome_closed_form img_data shape_info hT hW hsize _ hp]
  have hself : ctAt img_data (shape_info.Pitch * (shape_info.Height / 2))
      (r * shape_info.Width + c) =
      (if maskBit img_data 0 shape_info.Pitch r c = true then 1 else 0) +
        (if maskBit img_data (shape_info.Pitch * (shape_info.Height / 2)) shape_info.Pitch r c
          = true then 2 else 0) := by
    rw [hW, ctAt_rowcol]
  have hno := hplain r c hr hc
  by_cases ha : maskBit img_data 0 shape_info.Pitch r c = true
  · have hx : ¬ maskBit img_data (shape_info.Pitch * (shape_info.Height / 2))
        shape_info.Pitch r c = true := fun hx => hno ⟨ha, hx⟩
    have h1 : ctAt img_data (shape_info.Pitch * (shape_info.Height / 2))
        (r * shape_info.Width + c) = 1 := by rw [hself, if_pos ha, if_neg hx]
    rw [visitedValue_of_one _ _ _ _ h1, if_pos ha, if_neg]
    rintro (⟨h2, h3⟩ | ⟨h2, _, h3⟩)
    · have := hlt _ h2; omega
    · have := hlt _ h2; omega
  · rw [if_neg ha]
    by_cases hx : maskBit img_data (shape_info.Pitch * (shape_info.Height / 2))
        shape_info.Pitch r c = true
    · have h2 : ctAt img_data (shape_info.Pitch * (shape_info.Height / 2))
          (r * shape_info.Width + c) = 2 := by rw [hself, if_neg ha, if_pos hx]
      rw [if_pos hx, visitedValue_of_ne_one _ _ _ _ (by omega), h2]
      simp
    · have h0 : ctAt img_data (shape_info.Pitch * (shape_info.Height / 2))
          (r * shape_info.Width + c) = 0 := by rw [hself, if_neg ha, if_neg hx]
      rw [if_neg hx, visitedValue_of_ne_one _ _ _ _ (by omega), h0]
      simp

/-- An instance of `make_cursor_image_inverse_top_left`: in an 8x2 shape whose
pixel `(1, 1)` is inverse, the pixels `(0, 1)` and `(1, 0)`, both with AND 1
and XOR 0, are not transparent. -/
theorem make_cursor_image_inverse_top_left_witness :
    imagePixel (make_cursor_image [0x40, 0xC0, 0x00, 0x40] ⟨ShapeType.MONOCHROME, 8, 4, 1⟩)
      8 0 1 ≠ transparent ∧
    imagePixel (make_cursor_image [0x40, 0xC0, 0x00, 0x40] ⟨ShapeType.MONOCHROME, 8, 4, 1⟩)
      8 1 0 ≠ transparent :=
  ⟨(make_cursor_image_inverse_top_left [0x40, 0xC0, 0x00, 0x40]
      ⟨ShapeType.MONOCHROME, 8, 4, 1⟩ rfl rfl (by decide) 1 1 (by decide) (by decide)
      (by decide) (by decide)).1 (by decide),
   (make_cursor_image_inverse_top_left [0x40, 0xC0, 0x00, 0x40]
      ⟨ShapeType.MONOCHROME, 8, 4, 1⟩ rfl rfl (by decide) 1 1 (by decide) (by decide)
      (by decide) (by decide)).2 (by decide)⟩

/-- An instance of `make_cursor_image_plain_pixels`: an 8x2 shape without
inverse pixel whose pixel `(0, 0)` has AND 1 and XOR 0. -/
theorem make_cursor_image_plain_pixels_witness :
    imagePixel (make_cursor_image [0x80, 0x00, 0x40, 0x00] ⟨ShapeType.MONOCHROME, 8, 4, 1⟩)
      8 0 0 = transparent :=
  (make_cursor_image_plain_pixels [0x80, 0x00, 0x40, 0x00] ⟨ShapeType.MONOCHROME, 8, 4, 1⟩
    rfl rfl (by decide)
    (by
      intro r c hr hc
      have hr' : r < 2 := hr
      have hc' : c < 8 := hc
      interval_cases r <;> interval_cases c <;> decide)
    0 0 (by decide) (by decide)).trans (by decide)

/-! ## Colour matrices -/

/-- C5: in exact rational arithmetic each of the four entries
`colors[standard*2 + rangeIsFull]` is the matrix `make_color_matrix` yields on
that row of the parameter table, which is the matrix with
`Y = (Cr, 1-Cr-Cb, Cb, addY)`,
`U = (-Cr*Umax/(1-Cb), -(1-Cr-Cb)*Umax/(1-Cb), Umax, addUV)`,
`V = (Vmax, -(1-Cr-Cb)*Vmax/(1-Cr), -Cb*Vmax/(1-Cr), addUV)`;
the Y row of BT601/limited is `(0.299, 0.587, 0.114, 0.0625)`. -/
theorem colors_eq_table :
    (∀ standard rangeIsFull : Fin 2,
      colors[standard.val * 2 + rangeIsFull.val]? =
          some (make_color_matrix (specTable standard rangeIsFull).Cr
            (specTable standard rangeIsFull).Cb (specTable standard rangeIsFull).Umax
            (specTable standard rangeIsFull).Vmax (specTable standard rangeIsFull).addY
            (specTable standard rangeIsFull).addUV) ∧
      colors[standard.val * 2 + rangeIsFull.val]? =
          some (buildMatrix (specTable standard rangeIsFull))) ∧
    (colors[0]?.map color_t.color_vec_y) =
      some ⟨299 / 1000, 587 / 1000, 114 / 1000, 625 / 10000⟩ := by
  refine ⟨?_, ?_⟩
  · intro standard rangeIsFull
    fin_cases standard <;> fin_cases rangeIsFull <;>
      simp [colors, specTable, buildMatrix, make_color_matrix] <;> norm_num
  · simp [colors, make_color_matrix]; norm_num

/-! ## The capture session: spurious wake -/

/-- C6: when `next_frame` succeeds and the frame information has
`AccumulatedFrames = 0`, `LastPresentTime = 0`, `LastMouseUpdateTime = 0` and
`PointerShapeBufferSize = 0`, `snapshot` returns `timeout` and the session is
what it was: no `CopyResource` is issued, the cursor texture, width and
height are unchanged, and no registered pipeline is called. -/
theorem snapshot_spurious_wake (self : display_vram_t) (img : img_d3d_t)
    (cursor_visible : Bool) (env : SnapshotEnv)
    (hok : env.capture_status = capture_e.ok)
    (hframes : env.frame_info.AccumulatedFrames = 0)
    (hpresent : env.frame_info.LastPresentTime = 0)
    (hmouse : env.frame_info.LastMouseUpdateTime = 0)
    (hshape : env.frame_info.PointerShapeBufferSize = 0) :
    (self.snapshot img cursor_visible env).1 = capture_e.timeout ∧
    (self.snapshot img cursor_visible env).2 = self ∧
    (self.snapshot img cursor_visible env).2.device_ctx = self.device_ctx ∧
    (self.snapshot img cursor_visible env).2.cursor = self.cursor ∧
    (self.snapshot img cursor_visible env).2.objects = self.objects ∧
    (self.snapshot img cursor_visible env).2.visits = self.visits := by
  have h : self.snapshot img cursor_visible env = (capture_e.timeout, self) := by
    simp [display_vram_t.snapshot, hok, hframes, hpresent, hmouse, hshape]
  simp [h]

/-- Witness for C6: the one-pipeline session on an idle acquisition. -/
theorem snapshot_spurious_wake_witness :
    (session1.snapshot frameImg true idleEnv).1 = capture_e.timeout ∧
    (session1.snapshot frameImg true idleEnv).2 = session1 ∧
    (session1.snapshot frameImg true idleEnv).2.device_ctx = session1.device_ctx ∧
    (session1.snapshot frameImg true idleEnv).2.cursor = session1.cursor ∧
    (session1.snapshot frameImg true idleEnv).2.objects = session1.objects ∧
    (session1.snapshot frameImg true idleEnv).2.visits = session1.visits :=
  snapshot_spurious_wake session1 frameImg true idleEnv rfl rfl rfl rfl rfl

/-! ## The conversion pipeline: draw calls -/

/-- C7: when the frame has a shader view or its creation succeeds, `convert`
returns 0 and issues exactly two draws if `cursor_visible` is false, the
first with the luma target bound and the second with the chroma target, and
exactly four if it is true: two with the scene-composite target bound, then
luma, then chroma. -/
theorem convert_draws (self : hwdevice_t) (img : img_d3d_t) (srv : Created) (bound : Handle)
    (hview : img.input_res ≠ 0 ∨ FAILED srv.status = false) :
    (self.convert img srv).1 = 0 ∧
    drawCount (self.convert img srv).2.2 = (if self.cursor_visible then 4 else 2) ∧
    drawTargets bound (self.convert img srv).2.2 =
      (if self.cursor_visible
       then [self.scene_rt, self.scene_rt, self.nv12_Y_rt, self.nv12_UV_rt]
       else [self.nv12_Y_rt, self.nv12_UV_rt]) := by
  have hne : ¬ (img.input_res = 0 ∧ FAILED srv.status = true) := by
    rintro ⟨h1, h2⟩
    rcases hview with h | h
    · exact h h1
    · rw [h2] at h; exact Bool.noConfusion h
  cases hv : self.cursor_visible <;>
    simp [hwdevice_t.convert, hne, hv, drawCount, drawTargets, _init_view_port]

/-- Witness for C7: the initialised pipeline after `set_cursor_pos` with
`visible = true`, converting a frame that has its view. -/
theorem convert_draws_witness :
    ((pipeline720.set_cursor_pos 5 7 true).convert frameImg ⟨0, 0⟩).1 = 0 ∧
    drawCount ((pipeline720.set_cursor_pos 5 7 true).convert frameImg ⟨0, 0⟩).2.2 =
      (if (pipeline720.set_cursor_pos 5 7 true).cursor_visible then 4 else 2) ∧
    drawTargets 0 ((pipeline720.set_cursor_pos 5 7 true).convert frameImg ⟨0, 0⟩).2.2 =
      (if (pipeline720.set_cursor_pos 5 7 true).cursor_visible
       then [(pipeline720.set_cursor_pos 5 7 true).scene_rt,
             (pipeline720.set_cursor_pos 5 7 true).scene_rt,
             (pipeline720.set_cursor_pos 5 7 true).nv12_Y_rt,
             (pipeline720.set_cursor_pos 5 7 true).nv12_UV_rt]
       else [(pipeline720.set_cursor_pos 5 7 true).nv12_Y_rt,
             (pipeline720.set_cursor_pos 5 7 true).nv12_UV_rt]) :=
  convert_draws (pipeline720.set_cursor_pos 5 7 true) frameImg ⟨0, 0⟩ 0
    (Or.inl (by decide))

/-! ## The conversion pipeline: the cursor pass -/

theorem initShaders_cursor_visible (self : hwdevice_t) (o : InitOutcomes) :
    (initShaders self o).2.cursor_visible = self.cursor_visible := by
  unfold initShaders
  split_ifs <;> rfl

theorem initScene_cursor_visible (self : hwdevice_t) (o : InitOutcomes) :
    (initScene self o).2.cursor_visible = self.cursor_visible := by
  unfold initScene
  simp only []
  split_ifs <;> rfl

theorem initOutput_cursor_visible (self : hwdevice_t) (out_width out_height : Int)
    (o : InitOutcomes) :
    (initOutput self out_width out_height o).2.cursor_visible = self.cursor_visible := by
  unfold initOutput
  split_ifs <;> rfl

theorem init_cursor_visible (self : hwdevice_t) (device_p : Handle)
    (in_width in_height out_width out_height : Int) (pix_fmt : pix_fmt_e) (o : InitOutcomes) :
    (self.init device_p in_width in_height out_width out_height pix_fmt o).2.1.cursor_visible
      = false := by
  unfold hwdevice_t.init
  simp only []
  split_ifs <;>
    simp only [initOutput_cursor_visible, initScene_cursor_visible, initShaders_cursor_visible]

theorem calls_cursor_visible (cs : List PipelineCall) :
    ∀ self : hwdevice_t, (self.calls cs).cursor_visible = lastVisible self.cursor_visible cs := by
  induction cs with
  | nil => intro self; rfl
  | cons c rest ih =>
      intro self
      have hstep : (self.calls (c :: rest)) = (self.call c).calls rest := rfl
      rw [hstep, ih]
      cases c with
      | set_cursor_texture texture width height srv =>
          have : (self.call (.set_cursor_texture texture width height srv)).cursor_visible
              = self.cursor_visible := by
            simp only [hwdevice_t.call, hwdevice_t.set_cursor_texture]
            split_ifs <;> rfl
          rw [this]; rfl
      | set_cursor_pos rel_x rel_y visible =>
          have : (self.call (.set_cursor_pos rel_x rel_y visible)).cursor_visible = visible := by
            simp only [hwdevice_t.call, hwdevice_t.set_cursor_pos]
            split_ifs <;> rfl
          rw [this]; rfl
      | set_colorspace colorspace color_range buf =>
          have : (self.call (.set_colorspace colorspace color_range buf)).cursor_visible
              = self.cursor_visible := by
            simp only [hwdevice_t.call, hwdevice_t.set_colorspace]
            split_ifs <;> rfl
          rw [this]; rfl
      | convert img srv => rfl

/-- C9 (counterexample): after a successful `init` followed by
`set_cursor_pos` with `visible = true` the pipeline holds no cursor view
(`img.input_res` is null), and `convert` issues four draws: the second one
with the scene-composite target bound and the null view as its input. -/
theorem convert_overlays_without_cursor_view :
    (hwdevice_t.constructed.init 1 1920 1080 1280 720 pix_fmt_e.nv12 okOutcomes).1 = 0 ∧
    (pipeline720.calls [PipelineCall.set_cursor_pos 5 7 true]).img.input_res = 0 ∧
    drawCount ((pipeline720.calls [PipelineCall.set_cursor_pos 5 7 true]).convert
      frameImg ⟨0, 0⟩).2.2 = 4 ∧
    drawTargets 0 ((pipeline720.calls [PipelineCall.set_cursor_pos 5 7 true]).convert
      frameImg ⟨0, 0⟩).2.2 = [110, 110, 115, 116] ∧
    drawResources 0 ((pipeline720.calls [PipelineCall.set_cursor_pos 5 7 true]).convert
      frameImg ⟨0, 0⟩).2.2 = [201, 0, 109, 109] := by
  decide

/-- C9 (amended): in every state reached from `init` (whatever it returned,
a successful one included) by calls of `set_cursor_texture`,
`set_cursor_pos`, `set_colorspace` and `convert`: when the frame has no
source view and creating one fails, `convert` returns `-1` and issues no
draw; otherwise it returns `0` and issues the two cursor-pass draws exactly
when the latest `set_cursor_pos` passed `visible = true`, whether or not a
cursor view is held, the second of them reading the pipeline's cursor view.
When no `set_cursor_pos` was made or the latest passed `visible = false`,
only the luma and chroma draws are issued. -/
theorem convert_cursor_pass_iff_visible (self : hwdevice_t) (device_p : Handle)
    (in_width in_height out_width out_height : Int) (pix_fmt : pix_fmt_e) (o : InitOutcomes)
    (cs : List PipelineCall) (img : img_d3d_t) (srv : Created) (bound res : Handle) :
    (((self.init device_p in_width in_height out_width out_height pix_fmt o).2.1.calls
        cs).convert img srv).1 =
      (if img.input_res = 0 ∧ FAILED srv.status = true then -1 else 0) ∧
    drawTargets bound
        (((self.init device_p in_width in_height out_width out_height pix_fmt o).2.1.calls
          cs).convert img srv).2.2 =
      (if img.input_res = 0 ∧ FAILED srv.status = true then []
       else if lastVisible false cs
       then [((self.init device_p in_width in_height out_width out_height pix_fmt o).2.1.calls
                cs).scene_rt,
             ((self.init device_p in_width in_height out_width out_height pix_fmt o).2.1.calls
                cs).scene_rt,
             ((self.init device_p in_width in_height out_width out_height pix_fmt o).2.1.calls
                cs).nv12_Y_rt,
             ((self.init device_p in_width in_height out_width out_height pix_fmt o).2.1.calls
                cs).nv12_UV_rt]
       else [((self.init device_p in_width in_height out_width out_height pix_fmt o).2.1.calls
                cs).nv12_Y_rt,
             ((self.init device_p in_width in_height out_width out_height pix_fmt o).2.1.calls
                cs).nv12_UV_rt]) ∧
    (¬ (img.input_res = 0 ∧ FAILED srv.status = true) → lastVisible false cs = true →
      (drawResources res
        (((self.init device_p in_width in_height out_width out_height pix_fmt o).2.1.calls
          cs).convert img srv).2.2)[1]? =
        some ((self.init device_p in_width in_height out_width out_height pix_fmt o).2.1.calls
          cs).img.input_res) := by
  generalize hs0 : (self.init device_p in_width in_height out_width out_height pix_fmt o).2.1 = s0
  have h0 : s0.cursor_visible = false := by
    rw [← hs0]; exact init_cursor_visible _ _ _ _ _ _ _ _
  have hv : (s0.calls cs).cursor_visible = lastVisible false cs := by
    rw [calls_cursor_visible, h0]
  generalize s0.calls cs = s at hv ⊢
  rw [← hv]
  by_cases hne : img.input_res = 0 ∧ FAILED srv.status = true
  · simp [hwdevice_t.convert, hne, drawTargets]
  · cases hc : s.cursor_visible <;>
      simp [hwdevice_t.convert, hne, hc, drawTargets, drawResources, _init_view_port]

/-- Witness for C9 (amended): `pipeline720` after `set_cursor_pos` with
`visible = true`, converting a frame that has a source view, and converting
one that has none while the view creation fails. -/
theorem convert_cursor_pass_iff_visible_witness :
    drawTargets 0
        (((hwdevice_t.constructed.init 1 1920 1080 1280 720 pix_fmt_e.nv12 okOutcomes).2.1.calls
          [PipelineCall.set_cursor_pos 5 7 true]).convert frameImg ⟨0, 0⟩).2.2 =
      [110, 110, 115, 116] ∧
    lastVisible false [PipelineCall.set_cursor_pos 5 7 true] = true ∧
    (((hwdevice_t.constructed.init 1 1920 1080 1280 720 pix_fmt_e.nv12 okOutcomes).2.1.calls
      [PipelineCall.set_cursor_pos 5 7 true]).convert
        { frameImg with input_res := 0 } ⟨E_FAIL, 0⟩).1 = -1 ∧
    drawTargets 0
        (((hwdevice_t.constructed.init 1 1920 1080 1280 720 pix_fmt_e.nv12 okOutcomes).2.1.calls
          [PipelineCall.set_cursor_pos 5 7 true]).convert
            { frameImg with input_res := 0 } ⟨E_FAIL, 0⟩).2.2 = [] :=
  ⟨((convert_cursor_pass_iff_visible hwdevice_t.constructed 1 1920 1080 1280 720
      pix_fmt_e.nv12 okOutcomes [PipelineCall.set_cursor_pos 5 7 true] frameImg ⟨0, 0⟩ 0
      0).2.1).trans (by decide),
   by decide,
   ((convert_cursor_pass_iff_visible hwdevice_t.constructed 1 1920 1080 1280 720
      pix_fmt_e.nv12 okOutcomes [PipelineCall.set_cursor_pos 5 7 true]
      { frameImg with input_res := 0 } ⟨E_FAIL, 0⟩ 0 0).1).trans (by decide),
   ((convert_cursor_pass_iff_visible hwdevice_t.constructed 1 1920 1080 1280 720
      pix_fmt_e.nv12 okOutcomes [PipelineCall.set_cursor_pos 5 7 true]
      { frameImg with input_res := 0 } ⟨E_FAIL, 0⟩ 0 0).2.1).trans (by decide)⟩

/-! ## The conversion pipeline: `init` -/

theorem initShaders_result (self : hwdevice_t) (o : InitOutcomes) :
    (initShaders self o).1 =
      if o.merge_Y_vs.status ≠ 0 ∨ o.merge_Y_ps.status ≠ 0 ∨ o.merge_UV_ps.status ≠ 0 ∨
          o.merge_UV_vs.status ≠ 0 ∨ o.scene_ps.status ≠ 0 then -1 else 0 := by
  unfold initShaders
  split_ifs <;> simp_all

theorem initScene_result (self : hwdevice_t) (o : InitOutcomes) :
    (initScene self o).1 =
      if o.scene_tex.status ≠ 0 ∨ make_buffer o.color_matrix = 0 then -1 else 0 := by
  unfold initScene _init_rt
  simp only []
  split_ifs <;> simp_all

theorem initOutput_result (self : hwdevice_t) (out_width out_height : Int) (o : InitOutcomes) :
    (initOutput self out_width out_height o).1 =
      if FAILED o.out_tex.status = true ∨ FAILED o.nv12_Y_rt.status = true ∨
          FAILED o.nv12_UV_rt.status = true ∨ FAILED o.sampler_linear.status = true
      then -1 else 0 := by
  unfold initOutput
  split_ifs <;> simp_all

/-- The result of `init` in terms of the creation outcomes: it is `-1`
exactly when one of the five shader creations, the scene-composite texture
or the colour-matrix buffer returns a non-zero status (or the buffer pointer
is null), or the output texture, one of its two render-target views or the
sampler fails; the outcomes of the two blend states, the two scene views,
the scene-info buffer and the input layout do not enter. -/
theorem init_result (self : hwdevice_t) (device_p : Handle)
    (in_width in_height out_width out_height : Int) (pix_fmt : pix_fmt_e) (o : InitOutcomes) :
    (self.init device_p in_width in_height out_width out_height pix_fmt o).1 =
      if (o.merge_Y_vs.status ≠ 0 ∨ o.merge_Y_ps.status ≠ 0 ∨ o.merge_UV_ps.status ≠ 0 ∨
            o.merge_UV_vs.status ≠ 0 ∨ o.scene_ps.status ≠ 0) ∨
          (o.scene_tex.status ≠ 0 ∨ make_buffer o.color_matrix = 0) ∨
          (FAILED o.out_tex.status = true ∨ FAILED o.nv12_Y_rt.status = true ∨
            FAILED o.nv12_UV_rt.status = true ∨ FAILED o.sampler_linear.status = true)
      then -1 else 0 := by
  unfold hwdevice_t.init
  simp only [initShaders_result, initScene_result, initOutput_result]
  split_ifs <;> simp_all

/-- C10 (failing inputs): `init` returns 0 although a creation fails with
`E_FAIL`, for each of: the shader view of the scene-composite texture, its
render-target view, the scene-info buffer, either blend state, and the input
layout; every other creation succeeds. -/
theorem init_ignores_failed_creations :
    FAILED E_FAIL = true ∧
    (hwdevice_t.constructed.init 1 1920 1080 1280 720 pix_fmt_e.nv12
      { okOutcomes with scene_sr := ⟨E_FAIL, 0⟩ }).1 = 0 ∧
    (hwdevice_t.constructed.init 1 1920 1080 1280 720 pix_fmt_e.nv12
      { okOutcomes with scene_rt := ⟨E_FAIL, 0⟩ }).1 = 0 ∧
    (hwdevice_t.constructed.init 1 1920 1080 1280 720 pix_fmt_e.nv12
      { okOutcomes with info_scene := ⟨E_FAIL, 0⟩ }).1 = 0 ∧
    (hwdevice_t.constructed.init 1 1920 1080 1280 720 pix_fmt_e.nv12
      { okOutcomes with blend_disable := ⟨E_FAIL, 0⟩ }).1 = 0 ∧
    (hwdevice_t.constructed.init 1 1920 1080 1280 720 pix_fmt_e.nv12
      { okOutcomes with blend_enable := ⟨E_FAIL, 0⟩ }).1 = 0 ∧
    (hwdevice_t.constructed.init 1 1920 1080 1280 720 pix_fmt_e.nv12
      { okOutcomes with input_layout := ⟨E_FAIL, 0⟩ }).1 = 0 := by
  decide

/-! ## The registry of pipelines -/

theorem live_destroy (s : display_vram_t) (p q : Nat) :
    q ∈ (s.destroy p).live ↔ q ∈ s.live ∧ q ≠ p := by
  simp only [display_vram_t.live, display_vram_t.destroy, List.mem_map, List.mem_filter]
  constructor
  · rintro ⟨e, ⟨he, hne⟩, rfl⟩
    exact ⟨⟨e, he, rfl⟩, by simpa using hne⟩
  · rintro ⟨⟨e, he, rfl⟩, hne⟩
    exact ⟨e, ⟨he, by simpa using hne⟩, rfl⟩

theorem RegistryInv.destroy {s : display_vram_t} (h : RegistryInv s) (p : Nat) :
    RegistryInv (s.destroy p) := by
  refine ⟨h.1.erase p, ?_⟩
  intro q hq
  have hq' : q ∈ s.hwdevices.erase p := hq
  rw [h.1.mem_erase_iff] at hq'
  exact (live_destroy s p q).mpr ⟨h.2 q hq'.2, hq'.1⟩

theorem RegistryInv.make_hwdevice {s : display_vram_t} (h : RegistryInv s) (p : Nat)
    (hp : p ∉ s.live) (width height : Int) (pix_fmt : pix_fmt_e) (o : InitOutcomes)
    (srv : Created) : RegistryInv (s.make_hwdevice p width height pix_fmt o srv).2 := by
  have hgrow : ∀ (ctx : List Cmd) (ob : hwdevice_t) (vis : List Visit),
      RegistryInv { s with device_ctx := ctx, objects := s.objects ++ [(p, ob)], visits := vis } := by
    intro ctx ob vis
    refine ⟨h.1, ?_⟩
    intro q hq
    have := h.2 q hq
    simp only [display_vram_t.live, List.map_append, List.mem_append] at this ⊢
    exact Or.inl this
  have hreg : ∀ (ctx : List Cmd) (ob : hwdevice_t) (vis : List Visit),
      RegistryInv { s with device_ctx := ctx, hwdevices := s.hwdevices ++ [p],
                           objects := s.objects ++ [(p, ob)], visits := vis } := by
    intro ctx ob vis
    refine ⟨?_, ?_⟩
    · have hnot : p ∉ s.hwdevices := fun hin => hp (h.2 p hin)
      exact List.Nodup.append h.1 (List.nodup_singleton p) (by simpa using hnot)
    · intro q hq
      simp only [display_vram_t.live, List.map_append, List.mem_append, List.map_cons,
        List.map_nil, List.mem_singleton] at hq ⊢
      rcases hq with hq | hq
      · exact Or.inl (h.2 q hq)
      · exact Or.inr hq
  unfold display_vram_t.make_hwdevice
  simp only []
  split_ifs
  all_goals first
    | exact h
    | exact (hgrow _ _ _).destroy p
    | exact hreg _ _ _

theorem updateObject_fst (p : Nat) (f : hwdevice_t → hwdevice_t) :
    ∀ l : List (Nat × hwdevice_t), (updateObject p f l).map Prod.fst = l.map Prod.fst
  | [] => rfl
  | (a, o) :: rest => by
      have ih := updateObject_fst p f rest
      unfold updateObject
      split_ifs <;> simp [ih]

theorem broadcastTexture_registry (srv : Nat → Created) (tex_p : Handle) (width height : Int) :
    ∀ (l : List Nat) (s : display_vram_t),
      (broadcastTexture srv tex_p width height l s).2.hwdevices = s.hwdevices ∧
      (broadcastTexture srv tex_p width height l s).2.live = s.live := by
  intro l
  induction l with
  | nil => intro s; exact ⟨rfl, rfl⟩
  | cons p rest ih =>
      intro s
      unfold broadcastTexture
      simp only []
      split
      · exact ih _
      · split_ifs
        · exact ⟨rfl, by simp [display_vram_t.live, updateObject_fst]⟩
        · exact ⟨(ih _).1, (ih _).2.trans (by simp [display_vram_t.live, updateObject_fst])⟩

theorem broadcastPos_registry (rel_x rel_y : Int) (visible : Bool) :
    ∀ (l : List Nat) (s : display_vram_t),
      (broadcastPos rel_x rel_y visible l s).hwdevices = s.hwdevices ∧
      (broadcastPos rel_x rel_y visible l s).live = s.live := by
  intro l
  induction l with
  | nil => intro s; exact ⟨rfl, rfl⟩
  | cons p rest ih =>
      intro s
      unfold broadcastPos
      have h := ih { s with
        visits := s.visits ++ [Visit.set_cursor_pos p],
        objects := updateObject p (fun o => o.set_cursor_pos rel_x rel_y visible) s.objects }
      refine ⟨h.1, ?_⟩
      rw [h.2]
      simp [display_vram_t.live, updateObject_fst]

theorem snapshot_eq (self : display_vram_t) (img : img_d3d_t) (cursor_visible : Bool)
    (env : SnapshotEnv) :
    self.snapshot img cursor_visible env =
      if env.capture_status ≠ capture_e.ok then (env.capture_status, self)
      else if (!((decide (env.frame_info.LastMouseUpdateTime ≠ 0) ||
                   decide (env.frame_info.PointerShapeBufferSize > 0)) ||
                 (decide (env.frame_info.AccumulatedFrames ≠ 0) ||
                   decide (env.frame_info.LastPresentTime ≠ 0)))) = true
        then (capture_e.timeout, self)
      else
        match (snapshotShape self env).1 with
        | some result => result
        | none => snapshotFrame (snapshotShape self env).2 img cursor_visible env := rfl

theorem snapshotShape_registry (self : display_vram_t) (env : SnapshotEnv) :
    ((snapshotShape self env).2.hwdevices = self.hwdevices ∧
      (snapshotShape self env).2.live = self.live) ∧
    ∀ result, (snapshotShape self env).1 = some result →
      result.2.hwdevices = self.hwdevices ∧ result.2.live = self.live := by
  have hb := broadcastTexture_registry env.cursor_srv env.cursor_tex.ptr
    (toLONG env.shape_info.Width)
    (toLONG ((make_cursor_image env.img_data env.shape_info).length /
      (4 * env.shape_info.Width % 4294967296))) self.hwdevices self
  unfold snapshotShape
  simp only []
  split_ifs
  · exact ⟨⟨rfl, rfl⟩, fun result h => by cases h; exact ⟨rfl, rfl⟩⟩
  · exact ⟨⟨rfl, rfl⟩, fun result h => by cases h; exact ⟨rfl, rfl⟩⟩
  · exact ⟨hb, fun result h => by cases h; exact hb⟩
  · exact ⟨hb, fun result h => by cases h⟩
  · exact ⟨⟨rfl, rfl⟩, fun result h => by cases h⟩

theorem snapshotFrame_registry (self : display_vram_t) (img : img_d3d_t)
    (cursor_visible : Bool) (env : SnapshotEnv) :
    (snapshotFrame self img cursor_visible env).2.hwdevices = self.hwdevices ∧
    (snapshotFrame self img cursor_visible env).2.live = self.live := by
  have hb := broadcastPos_registry env.frame_info.PointerPosition.x
    env.frame_info.PointerPosition.y (env.frame_info.PointerPosition.Visible && cursor_visible)
    self.hwdevices self
  unfold snapshotFrame
  simp only []
  split_ifs
  all_goals first
    | exact hb
    | exact ⟨rfl, rfl⟩

theorem snapshot_registry (self : display_vram_t) (img : img_d3d_t) (cursor_visible : Bool)
    (env : SnapshotEnv) :
    (self.snapshot img cursor_visible env).2.hwdevices = self.hwdevices ∧
    (self.snapshot img cursor_visible env).2.live = self.live := by
  rw [snapshot_eq]
  have hs := snapshotShape_registry self env
  split_ifs
  · exact ⟨rfl, rfl⟩
  · exact ⟨rfl, rfl⟩
  · cases hm : (snapshotShape self env).1 with
    | some result => exact hs.2 result hm
    | none =>
        have hf := snapshotFrame_registry (snapshotShape self env).2 img cursor_visible env
        exact ⟨hf.1.trans hs.1.1, hf.2.trans hs.1.2⟩

theorem RegistryInv.snapshot {s : display_vram_t} (h : RegistryInv s) (img : img_d3d_t)
    (cursor_visible : Bool) (env : SnapshotEnv) :
    RegistryInv (s.snapshot img cursor_visible env).2 := by
  have hr := snapshot_registry s img cursor_visible env
  refine ⟨by rw [hr.1]; exact h.1, ?_⟩
  intro q hq
  rw [hr.1] at hq
  rw [hr.2]
  exact h.2 q hq

theorem RegistryInv.step {s t : display_vram_t} (h : RegistryInv s) (op : SessionOp)
    (hstep : s.step op = some t) : RegistryInv t := by
  cases op with
  | make_hwdevice p width height pix_fmt o srv =>
      simp only [display_vram_t.step] at hstep
      split_ifs at hstep with hp
      cases hstep
      exact h.make_hwdevice p hp width height pix_fmt o srv
  | destroy p =>
      simp only [display_vram_t.step] at hstep
      split_ifs at hstep with hp
      cases hstep
      exact h.destroy p
  | snapshot img cursor_visible env =>
      simp only [display_vram_t.step] at hstep
      cases hstep
      exact h.snapshot img cursor_visible env

theorem RegistryInv.run (ops : List SessionOp) :
    ∀ {s t : display_vram_t}, RegistryInv s → s.run ops = some t → RegistryInv t := by
  induction ops with
  | nil =>
      intro s t h hrun
      simp only [display_vram_t.run] at hrun
      cases hrun
      exact h
  | cons op rest ih =>
      intro s t h hrun
      simp only [display_vram_t.run] at hrun
      cases hop : s.step op with
      | none => rw [hop] at hrun; cases hrun
      | some u =>
          rw [hop] at hrun
          exact ih (h.step op hop) hrun

theorem RegistryInv.initial (device : Handle) (width height : Int) :
    RegistryInv (display_vram_t.initial device width height) :=
  ⟨List.nodup_nil, fun _ hq => by cases hq⟩

theorem broadcastPos_visits (rel_x rel_y : Int) (visible : Bool) :
    ∀ (l : List Nat) (s : display_vram_t),
      (broadcastPos rel_x rel_y visible l s).visits = s.visits ++ l.map Visit.set_cursor_pos := by
  intro l
  induction l with
  | nil => intro s; simp [broadcastPos]
  | cons p rest ih => intro s; simp [broadcastPos, ih]

theorem snapshot_visits_pos (self : display_vram_t) (img : img_d3d_t) (cursor_visible : Bool)
    (env : SnapshotEnv) (hok : env.capture_status = capture_e.ok)
    (hshape : env.frame_info.PointerShapeBufferSize = 0)
    (hmouse : env.frame_info.LastMouseUpdateTime ≠ 0) :
    (self.snapshot img cursor_visible env).2.visits =
      self.visits ++ self.hwdevices.map Visit.set_cursor_pos := by
  unfold display_vram_t.snapshot
  simp only [hok, hshape, hmouse, ne_eq, not_true_eq_false, not_false_eq_true, if_true, if_false,
    decide_True, decide_False, Bool.true_or, Bool.or_true, Bool.not_true, gt_iff_lt,
    lt_self_iff_false, Bool.false_eq_true]
  split_ifs <;> simp [broadcastPos_visits]

/-- C8: in every session reached from an empty registry by `make_hwdevice`
calls (successful or not, with or without a session cursor), pipeline
destructions and `snapshot` calls in any order, no address is registered
twice and every registered address is a live pipeline; destroying the
pipeline at `p` leaves a registry without `p` in which all other entries keep
their relative order; every entry left is a live pipeline other than `p`, and
a `snapshot` that broadcasts a pointer position afterwards calls
`set_cursor_pos` on exactly the entries left. -/
theorem destroy_unregisters (device : Handle) (width height : Int) (ops : List SessionOp)
    (s : display_vram_t) (p : Nat)
    (hrun : (display_vram_t.initial device width height).run ops = some s) :
    (s.hwdevices.Nodup ∧ ∀ q ∈ s.hwdevices, q ∈ s.live) ∧
    p ∉ (s.destroy p).hwdevices ∧
    (s.destroy p).hwdevices = s.hwdevices.filter (fun q => q ≠ p) ∧
    (∀ q ∈ (s.destroy p).hwdevices, q ∈ (s.destroy p).live ∧ q ≠ p) ∧
    ∀ (img : img_d3d_t) (cursor_visible : Bool) (env : SnapshotEnv),
      env.capture_status = capture_e.ok → env.frame_info.PointerShapeBufferSize = 0 →
      env.frame_info.LastMouseUpdateTime ≠ 0 →
      ((s.destroy p).snapshot img cursor_visible env).2.visits =
        (s.destroy p).visits ++ (s.hwdevices.filter (fun q => q ≠ p)).map Visit.set_cursor_pos := by
  have hinv : RegistryInv s := RegistryInv.run ops (RegistryInv.initial device width height) hrun
  have hfilter : (s.destroy p).hwdevices = s.hwdevices.filter (fun q => q ≠ p) := by
    simp only [display_vram_t.destroy]
    rw [hinv.1.erase_eq_filter p]
    exact List.filter_congr (fun q _ => by by_cases hq : q = p <;> simp [hq])
  have hinv' := hinv.destroy p
  refine ⟨hinv, ?_, hfilter, ?_, ?_⟩
  · rw [hfilter]; simp
  · intro q hq
    refine ⟨hinv'.2 q hq, ?_⟩
    rw [hfilter] at hq
    simpa using (List.mem_filter.mp hq).2
  · intro img cursor_visible env hok hshape hmouse
    rw [snapshot_visits_pos _ img cursor_visible env hok hshape hmouse, hfilter]

/-- Witness for C8: a `snapshot` sets the session cursor; the `make_hwdevice`
at 4096 then fails in `set_cursor_texture`, returns `nullptr` and registers
nothing; two more pipelines are made, a second `snapshot` fails in its
texture broadcast, and the pipeline at 8192 is destroyed. -/
theorem destroy_unregisters_witness :
    (display_vram_t.initial 1 1920 1080).run opsCursor = some sessionCursor ∧
    sessionCursor.cursor.texture = 301 ∧
    ((((display_vram_t.initial 1 1920 1080).snapshot frameImg true shapeEnv).2.make_hwdevice
        4096 1280 720 pix_fmt_e.nv12 okOutcomes ⟨E_FAIL, 0⟩).1 = none) ∧
    ((((display_vram_t.initial 1 1920 1080).snapshot frameImg true shapeEnv).2.make_hwdevice
        4096 1280 720 pix_fmt_e.nv12 okOutcomes ⟨E_FAIL, 0⟩).2.hwdevices = []) ∧
    sessionCursor.hwdevices = [8192, 12288] ∧
    sessionCursor.live = [8192, 12288] ∧
    8192 ∉ (sessionCursor.destroy 8192).hwdevices ∧
    (sessionCursor.destroy 8192).hwdevices = [12288] :=
  ⟨rfl, by decide, by decide, by decide, by decide, by decide,
    (destroy_unregisters 1 1920 1080 opsCursor sessionCursor 8192 rfl).2.1,
    ((destroy_unregisters 1 1920 1080 opsCursor sessionCursor 8192 rfl).2.2.1).trans
      (by decide)⟩

/-! ## The conversion pipeline: colour space -/

theorem colors_lookup (standard rangeIsFull : Fin 2) :
    colors[standard.val * 2 + rangeIsFull.val]? =
      some (buildMatrix (specTable standard rangeIsFull)) := by
  fin_cases standard <;> fin_cases rangeIsFull <;>
    simp [colors, specTable, buildMatrix, make_color_matrix] <;> norm_num

theorem set_colorspace_color_p (self : hwdevice_t) (colorspace color_range : Nat)
    (buf : Created) :
    (self.set_colorspace colorspace color_range buf).1.color_p =
      (if colorspace = 1 then 2 else 0) + (if color_range > 1 then 1 else 0) := by
  have hbase : (match colorspace with | 5 => 0 | 1 => 2 | _ => 0 : Nat) =
      if colorspace = 1 then 2 else 0 := by
    split <;> simp_all
  unfold hwdevice_t.set_colorspace
  simp only [hbase]
  split_ifs <;> simp_all

/-- C11: for all values of `colorspace` and `color_range` (32-bit ones
included), `set_colorspace` leaves `color_p` at `colors[base + full]`, where
`base` is 2 (BT709) for `colorspace = 1` and 0 (BT601) for every other value,
5 and 9 among them, and `full` is 1 exactly when `color_range > 1`, the
limited-range value, and 0 otherwise; that entry is the matrix of the
table row of this standard and range. -/
theorem set_colorspace_selects (self : hwdevice_t) (colorspace color_range : Nat)
    (buf : Created) :
    (self.set_colorspace colorspace color_range buf).1.color_p =
      (if colorspace = 1 then 2 else 0) + (if color_range > 1 then 1 else 0) ∧
    colors[(self.set_colorspace colorspace color_range buf).1.color_p]? =
      some (buildMatrix
        (specTable (if colorspace = 1 then 1 else 0) (if color_range > 1 then 1 else 0))) ∧
    (self.set_colorspace 5 color_range buf).1.color_p = (if color_range > 1 then 1 else 0) ∧
    (self.set_colorspace 9 color_range buf).1.color_p = (if color_range > 1 then 1 else 0) := by
  refine ⟨set_colorspace_color_p self colorspace color_range buf, ?_, ?_, ?_⟩
  · rw [set_colorspace_color_p]
    by_cases h1 : colorspace = 1 <;> by_cases h2 : color_range > 1
    · simpa [h1, h2] using colors_lookup 1 1
    · simpa [h1, h2] using colors_lookup 1 0
    · simpa [h1, h2] using colors_lookup 0 1
    · simpa [h1, h2] using colors_lookup 0 0
  · rw [set_colorspace_color_p]; simp
  · rw [set_colorspace_color_p]; simp

/-! ## The conversion pipeline: cursor scale, size and position -/

theorem initShaders_cursor_fields (self : hwdevice_t) (o : InitOutcomes) :
    (initShaders self o).2.cursor_scale = self.cursor_scale ∧
    (initShaders self o).2.cursor_scaled_width = self.cursor_scaled_width ∧
    (initShaders self o).2.cursor_scaled_height = self.cursor_scaled_height := by
  unfold initShaders
  split_ifs <;> exact ⟨rfl, rfl, rfl⟩

theorem initScene_cursor_fields (self : hwdevice_t) (o : InitOutcomes) :
    (initScene self o).2.cursor_scale = self.cursor_scale ∧
    (initScene self o).2.cursor_scaled_width = self.cursor_scaled_width ∧
    (initScene self o).2.cursor_scaled_height = self.cursor_scaled_height := by
  unfold initScene
  simp only []
  split_ifs <;> exact ⟨rfl, rfl, rfl⟩

theorem initOutput_cursor_fields (self : hwdevice_t) (out_width out_height : Int)
    (o : InitOutcomes) :
    (initOutput self out_width out_height o).2.cursor_scale = self.cursor_scale ∧
    (initOutput self out_width out_height o).2.cursor_scaled_width
      = self.cursor_scaled_width ∧
    (initOutput self out_width out_height o).2.cursor_scaled_height
      = self.cursor_scaled_height := by
  unfold initOutput
  split_ifs <;> exact ⟨rfl, rfl, rfl⟩

theorem init_cursor_fields (self : hwdevice_t) (device_p : Handle)
    (in_width in_height out_width out_height : Int) (pix_fmt : pix_fmt_e) (o : InitOutcomes) :
    (self.init device_p in_width in_height out_width out_height pix_fmt o).2.1.cursor_scale
      = (out_width : ℚ) / (in_width : ℚ) ∧
    (self.init device_p in_width in_height out_width out_height
      pix_fmt o).2.1.cursor_scaled_width = self.cursor_scaled_width ∧
    (self.init device_p in_width in_height out_width out_height
      pix_fmt o).2.1.cursor_scaled_height = self.cursor_scaled_height := by
  unfold hwdevice_t.init
  simp only []
  split_ifs <;>
    simp only [(initOutput_cursor_fields _ _ _ _).1, (initOutput_cursor_fields _ _ _ _).2.1,
      (initOutput_cursor_fields _ _ _ _).2.2, (initScene_cursor_fields _ _).1,
      (initScene_cursor_fields _ _).2.1, (initScene_cursor_fields _ _).2.2,
      (initShaders_cursor_fields _ _).1, (initShaders_cursor_fields _ _).2.1,
      (initShaders_cursor_fields _ _).2.2, and_self]

theorem call_cursor_scale (self : hwdevice_t) (c : PipelineCall) :
    (self.call c).cursor_scale = self.cursor_scale := by
  cases c with
  | set_cursor_texture texture width height srv =>
      simp only [hwdevice_t.call, hwdevice_t.set_cursor_texture]
      split_ifs <;> rfl
  | set_cursor_pos rel_x rel_y visible =>
      simp only [hwdevice_t.call, hwdevice_t.set_cursor_pos]
      split_ifs <;> rfl
  | set_colorspace colorspace color_range buf =>
      simp only [hwdevice_t.call, hwdevice_t.set_colorspace]
      split_ifs <;> rfl
  | convert img srv => rfl

theorem calls_cursor_scale (cs : List PipelineCall) :
    ∀ self : hwdevice_t, (self.calls cs).cursor_scale = self.cursor_scale := by
  induction cs with
  | nil => intro self; rfl
  | cons c rest ih =>
      intro self
      have hstep : (self.calls (c :: rest)) = (self.call c).calls rest := rfl
      rw [hstep, ih, call_cursor_scale]

theorem set_cursor_pos_view (self : hwdevice_t) (rel_x rel_y : Int) :
    (self.set_cursor_pos rel_x rel_y true).cursor_view.TopLeftX
      = (rel_x : ℚ) * self.cursor_scale ∧
    (self.set_cursor_pos rel_x rel_y true).cursor_view.TopLeftY
      = (rel_y : ℚ) * self.cursor_scale := by
  simp [hwdevice_t.set_cursor_pos]

theorem pipeline720_cursor_fields :
    pipeline720.cursor_scale = (1280 : ℚ) / 1920 ∧ pipeline720.cursor_scaled_width = 0 ∧
    pipeline720.cursor_scaled_height = 0 := by
  have h := init_cursor_fields hwdevice_t.constructed 1 1920 1080 1280 720 pix_fmt_e.nv12
    okOutcomes
  refine ⟨?_, ?_, ?_⟩
  · rw [pipeline720, h.1]; norm_num
  · rw [pipeline720, h.2.1]; rfl
  · rw [pipeline720, h.2.2]; rfl

/-- C12 (counterexample): on the pipeline initialised for 1920x1080 to
1280x720, a `set_cursor_texture` call for a 32x48 cursor whose view creation
fails with `E_FAIL` changes `cursor_scaled_width` from 0 to 64/3 and
`cursor_scaled_height` from 0 to 32. -/
theorem set_cursor_texture_failure_changes_size :
    FAILED E_FAIL = true ∧
    (pipeline720.set_cursor_texture 500 32 48 ⟨E_FAIL, 0⟩).1 = -1 ∧
    pipeline720.cursor_scaled_width = 0 ∧
    (pipeline720.set_cursor_texture 500 32 48 ⟨E_FAIL, 0⟩).2.cursor_scaled_width = 64 / 3 ∧
    (pipeline720.set_cursor_texture 500 32 48 ⟨E_FAIL, 0⟩).2.cursor_scaled_width
      ≠ pipeline720.cursor_scaled_width ∧
    pipeline720.cursor_scaled_height = 0 ∧
    (pipeline720.set_cursor_texture 500 32 48 ⟨E_FAIL, 0⟩).2.cursor_scaled_height = 32 ∧
    (pipeline720.set_cursor_texture 500 32 48 ⟨E_FAIL, 0⟩).2.cursor_scaled_height
      ≠ pipeline720.cursor_scaled_height := by
  have hf : FAILED E_FAIL = true := by decide
  have hw : (pipeline720.set_cursor_texture 500 32 48 ⟨E_FAIL, 0⟩).2.cursor_scaled_width
      = 64 / 3 := by
    simp only [hwdevice_t.set_cursor_texture, hf, if_true, pipeline720_cursor_fields.1]
    norm_num
  have hh : (pipeline720.set_cursor_texture 500 32 48 ⟨E_FAIL, 0⟩).2.cursor_scaled_height
      = 32 := by
    simp only [hwdevice_t.set_cursor_texture, hf, if_true, pipeline720_cursor_fields.1]
    norm_num
  refine ⟨hf, ?_, pipeline720_cursor_fields.2.1, hw, ?_, pipeline720_cursor_fields.2.2, hh, ?_⟩
  · simp [hwdevice_t.set_cursor_texture, hf]
  · rw [hw, pipeline720_cursor_fields.2.1]; norm_num
  · rw [hh, pipeline720_cursor_fields.2.2]; norm_num

/-- C12 (amended): when the creation of the cursor shader view fails,
`set_cursor_texture` returns -1 and leaves the cursor view, the cursor
viewport and `cursor_visible` as they were, and with them every other member
except two: `cursor_scaled_width` and `cursor_scaled_height` hold the new
width and height times `cursor_scale`. -/
theorem set_cursor_texture_failure (self : hwdevice_t) (texture : Handle)
    (width height : Int) (srv : Created) (hfail : FAILED srv.status = true) :
    (self.set_cursor_texture texture width height srv).1 = -1 ∧
    (self.set_cursor_texture texture width height srv).2.img.input_res = self.img.input_res ∧
    (self.set_cursor_texture texture width height srv).2.cursor_view = self.cursor_view ∧
    (self.set_cursor_texture texture width height srv).2.cursor_visible
      = self.cursor_visible ∧
    (self.set_cursor_texture texture width height srv).2.cursor_scaled_width
      = (width : ℚ) * self.cursor_scale ∧
    (self.set_cursor_texture texture width height srv).2.cursor_scaled_height
      = (height : ℚ) * self.cursor_scale ∧
    (self.set_cursor_texture texture width height srv).2 =
      { self with
        cursor_scaled_width := (width : ℚ) * self.cursor_scale,
        cursor_scaled_height := (height : ℚ) * self.cursor_scale } := by
  simp [hwdevice_t.set_cursor_texture, hfail]

/-- Witness for C12 (amended): the failing call on `pipeline720`. -/
theorem set_cursor_texture_failure_witness :
    FAILED (Created.mk E_FAIL 0).status = true ∧
    (pipeline720.set_cursor_texture 500 32 48 ⟨E_FAIL, 0⟩).1 = -1 ∧
    (pipeline720.set_cursor_texture 500 32 48 ⟨E_FAIL, 0⟩).2.img.input_res
      = pipeline720.img.input_res ∧
    (pipeline720.set_cursor_texture 500 32 48 ⟨E_FAIL, 0⟩).2.cursor_visible
      = pipeline720.cursor_visible :=
  ⟨by decide,
   (set_cursor_texture_failure pipeline720 500 32 48 ⟨E_FAIL, 0⟩ (by decide)).1,
   (set_cursor_texture_failure pipeline720 500 32 48 ⟨E_FAIL, 0⟩ (by decide)).2.1,
   (set_cursor_texture_failure pipeline720 500 32 48 ⟨E_FAIL, 0⟩ (by decide)).2.2.2.1⟩

theorem pipeline1024_cursor_scale : pipeline1024.cursor_scale = (1280 : ℚ) / 1920 := by
  have h := init_cursor_fields hwdevice_t.constructed 1 1920 1080 1280 1024 pix_fmt_e.nv12
    okOutcomes
  rw [pipeline1024, h.1]; norm_num

/-- C13 (counterexample): on the pipeline initialised for a 1920x1080 input
and a 1280x1024 output, `set_cursor_pos(960, 540, true)` puts the top of the
cursor viewport at 360, which is 540*1280/1920, and not at 540*1024/1080 = 512;
the left edge is at 960*1280/1920 = 640. -/
theorem set_cursor_pos_y_uses_width_ratio :
    (hwdevice_t.constructed.init 1 1920 1080 1280 1024 pix_fmt_e.nv12 okOutcomes).1 = 0 ∧
    (pipeline1024.set_cursor_pos 960 540 true).cursor_view.TopLeftX
      = (960 : ℚ) * 1280 / 1920 ∧
    (pipeline1024.set_cursor_pos 960 540 true).cursor_view.TopLeftY = 360 ∧
    (pipeline1024.set_cursor_pos 960 540 true).cursor_view.TopLeftY
      ≠ (540 : ℚ) * 1024 / 1080 := by
  have hx := (set_cursor_pos_view pipeline1024 960 540).1
  have hy := (set_cursor_pos_view pipeline1024 960 540).2
  rw [pipeline1024_cursor_scale] at hx hy
  refine ⟨by decide, ?_, ?_, ?_⟩
  · rw [hx]; norm_num
  · rw [hy]; norm_num
  · rw [hy]; norm_num

/-- C13 (amended): for a pipeline initialised with input size
`(in_width, in_height)`, `in_width` not 0, and output size
`(out_width, out_height)`, after any further calls, `set_cursor_pos(x, y, true)`
sets the top-left corner of the cursor viewport to
`(x*out_width/in_width, y*out_width/in_width)`: both coordinates are scaled by
the one factor `out_width/in_width`.  Where the output keeps the aspect ratio
of the input this is `(x*out_width/in_width, y*out_height/in_height)`. -/
theorem set_cursor_pos_top_left (self : hwdevice_t) (device_p : Handle)
    (in_width in_height out_width out_height : Int) (pix_fmt : pix_fmt_e) (o : InitOutcomes)
    (cs : List PipelineCall) (x y : Int) (hin : in_width ≠ 0) :
    ((((self.init device_p in_width in_height out_width out_height pix_fmt o).2.1.calls
        cs).set_cursor_pos x y true).cursor_view.TopLeftX
      = (x : ℚ) * out_width / in_width) ∧
    ((((self.init device_p in_width in_height out_width out_height pix_fmt o).2.1.calls
        cs).set_cursor_pos x y true).cursor_view.TopLeftY
      = (y : ℚ) * out_width / in_width) ∧
    (in_height ≠ 0 → out_height * in_width = out_width * in_height →
      (((self.init device_p in_width in_height out_width out_height pix_fmt o).2.1.calls
        cs).set_cursor_pos x y true).cursor_view.TopLeftY
      = (y : ℚ) * out_height / in_height) := by
  have hscale : ((self.init device_p in_width in_height out_width out_height pix_fmt
      o).2.1.calls cs).cursor_scale = (out_width : ℚ) / (in_width : ℚ) := by
    rw [calls_cursor_scale, (init_cursor_fields _ _ _ _ _ _ _ _).1]
  have hx := (set_cursor_pos_view ((self.init device_p in_width in_height out_width out_height
    pix_fmt o).2.1.calls cs) x y).1
  have hy := (set_cursor_pos_view ((self.init device_p in_width in_height out_width out_height
    pix_fmt o).2.1.calls cs) x y).2
  rw [hscale] at hx hy
  refine ⟨?_, ?_, ?_⟩
  · rw [hx, mul_div_assoc]
  · rw [hy, mul_div_assoc]
  · intro hh hratio
    rw [hy]
    have hin' : (in_width : ℚ) ≠ 0 := by exact_mod_cast hin
    have hh' : (in_height : ℚ) ≠ 0 := by exact_mod_cast hh
    have hr : (out_height : ℚ) * in_width = out_width * in_height := by exact_mod_cast hratio
    field_simp
    linear_combination (-(y : ℚ)) * hr

/-- Witness for C13 (amended): the 1920x1080 to 1280x720 pipeline, whose
output keeps the aspect ratio, with the pointer at `(960, 540)`. -/
theorem set_cursor_pos_top_left_witness :
    (1920 : Int) ≠ 0 ∧
    ((hwdevice_t.constructed.init 1 1920 1080 1280 720 pix_fmt_e.nv12 okOutcomes).2.1.calls
        []).set_cursor_pos 960 540 true = pipeline720.set_cursor_pos 960 540 true ∧
    (pipeline720.set_cursor_pos 960 540 true).cursor_view.TopLeftX = 640 ∧
    (pipeline720.set_cursor_pos 960 540 true).cursor_view.TopLeftY = 360 :=
  ⟨by decide, rfl,
   ((set_cursor_pos_top_left hwdevice_t.constructed 1 1920 1080 1280 720 pix_fmt_e.nv12
      okOutcomes [] 960 540 (by decide)).1).trans (by norm_num),
   ((set_cursor_pos_top_left hwdevice_t.constructed 1 1920 1080 1280 720 pix_fmt_e.nv12
      okOutcomes [] 960 540 (by decide)).2.2 (by decide) (by decide)).trans (by norm_num)⟩

/-! ## Pointer-shape decoding: the image by row and column -/

theorem monochromeScan_length (img_data : List Nat)
    (shape_info : DXGI_OUTDUPL_POINTER_SHAPE_INFO) :
    (monochromeScan img_data shape_info).cursor_img.length =
      shape_info.Width * (shape_info.Height / 2) * 4 % 4294967296 / 4 := by
  have hstep : ∀ (W c : Nat) (s : Scan),
      (visitPixel W c s).cursor_img.length = s.cursor_img.length := by
    intro W c s
    unfold visitPixel
    split <;> simp [inverseCase_length]
  have hfold : ∀ (W : Nat) (ct : Nat → Nat) (l : List Nat) (s : Scan),
      (scanPixels W ct l s).cursor_img.length = s.cursor_img.length := by
    intro W ct l
    induction l with
    | nil => intro s; rfl
    | cons i rest ih =>
        intro s
        have : scanPixels W ct (i :: rest) s = scanPixels W ct rest (visitPixel W (ct i) s) := rfl
        rw [this, ih, hstep]
  rw [monochromeScan_eq, hfold]
  simp

theorem storePixels_length (l : List Nat) : ((l.map storePixel).flatten).length = 4 * l.length := by
  induction l with
  | nil => rfl
  | cons p rest ih =>
      simp only [List.map_cons, List.flatten_cons, List.length_append, ih, List.length_cons]
      simp [storePixel]
      omega

theorem make_cursor_image_monochrome_length (img_data : List Nat)
    (shape_info : DXGI_OUTDUPL_POINTER_SHAPE_INFO)
    (hT : shape_info.Type_ = ShapeType.MONOCHROME) :
    (make_cursor_image img_data shape_info).length =
      4 * (shape_info.Width * (shape_info.Height / 2) * 4 % 4294967296 / 4) := by
  unfold make_cursor_image
  rw [hT]
  simp only []
  rw [storePixels_length, monochromeScan_length]

theorem make_cursor_image_monochrome_pixel (img_data : List Nat)
    (shape_info : DXGI_OUTDUPL_POINTER_SHAPE_INFO)
    (hT : shape_info.Type_ = ShapeType.MONOCHROME)
    (hW : shape_info.Width = 8 * shape_info.Pitch)
    (hbytes : shape_info.Pitch * (shape_info.Height / 2) < 4294967296)
    (q : Nat) (hq : q < (make_cursor_image img_data shape_info).length / 4) :
    q < shape_info.Width * (shape_info.Height / 2) ∧
    pixelAt (make_cursor_image img_data shape_info) q =
      visitedValue shape_info.Width
        (ctAt img_data (shape_info.Pitch * (shape_info.Height / 2)))
        (shape_info.Width * (shape_info.Height / 2)) q := by
  rw [make_cursor_image_monochrome_length img_data shape_info hT] at hq
  have hqL : q < shape_info.Width * (shape_info.Height / 2) * 4 % 4294967296 / 4 := by omega
  have hLn : shape_info.Width * (shape_info.Height / 2) * 4 % 4294967296 / 4 ≤
      shape_info.Width * (shape_info.Height / 2) := by
    have := Nat.mod_le (shape_info.Width * (shape_info.Height / 2) * 4) 4294967296
    omega
  have hqn : q < shape_info.Width * (shape_info.Height / 2) := lt_of_lt_of_le hqL hLn
  have hpos : 0 < shape_info.Width := by
    rcases Nat.eq_zero_or_pos shape_info.Width with h | h
    · rw [h] at hqn; simp at hqn
    · exact h
  have hn : 8 * (shape_info.Pitch * (shape_info.Height / 2)) =
      shape_info.Width * (shape_info.Height / 2) := by rw [hW]; ring
  have hinv := ScanInv.scan hpos (ctAt_le img_data (shape_info.Pitch * (shape_info.Height / 2)))
    (shape_info.Width * (shape_info.Height / 2) * 4 % 4294967296 / 4)
    (shape_info.Width * (shape_info.Height / 2))
  have hval := hinv.val q hqn hqL
  refine ⟨hqn, ?_⟩
  unfold make_cursor_image
  rw [hT]
  simp only []
  rw [pixelAt_storePixels, monochromeScan_eq, Nat.mod_eq_of_lt hbytes, hn]
  unfold Scan.load at hval
  rw [hval]
  exact Nat.mod_eq_of_lt (visitedValue_lt _ _ _ _)

theorem ctAt_inverse_iff (img_data : List Nat) (P h r c : Nat) :
    3 ≤ ctAt img_data (P * h) (r * (8 * P) + c) ↔ inversePixel img_data P h r c = true := by
  rw [ctAt_rowcol]
  unfold inversePixel
  cases maskBit img_data 0 P r c <;> cases maskBit img_data (P * h) P r c <;> simp

theorem row_lt_of_index_lt (W h r c : Nat) (hq : r * W + c < W * h) : r < h := by
  by_contra hr
  have hr' : h ≤ r := Nat.le_of_not_lt hr
  have : W * h ≤ r * W := by
    rw [Nat.mul_comm W h]; exact Nat.mul_le_mul_right W hr'
  omega

theorem below_in_range_iff (W h r c : Nat) (hc : c < W) :
    r * W + c + W < W * h ↔ r + 1 < h := by
  have e : r * W + c + W = (r + 1) * W + c := by ring
  constructor
  · intro hq
    rw [e] at hq
    exact row_lt_of_index_lt W h (r + 1) c hq
  · intro hr
    have h1 : (r + 2) * W ≤ h * W := Nat.mul_le_mul_right W hr
    have h2 : (r + 2) * W = r * W + W + W := by ring
    have h3 : h * W = W * h := Nat.mul_comm h W
    omega

theorem right_in_row_iff (W r c : Nat) (hc : c < W) :
    (r * W + c + 1) % W ≠ 0 ↔ c + 1 < W := by
  have e : (r * W + c + 1) % W = (c + 1) % W := by
    rw [Nat.add_assoc, Nat.mul_comm, Nat.mul_add_mod]
  rw [e]
  constructor
  · intro hm
    by_contra hlt
    have : c + 1 = W := by omega
    rw [this, Nat.mod_self] at hm
    exact hm rfl
  · intro hlt
    rw [Nat.mod_eq_of_lt hlt]
    omega

theorem visitedValue_rowcol (img_data : List Nat) (P h r c : Nat) (hc : c < 8 * P)
    (hr : r < h) :
    visitedValue (8 * P) (ctAt img_data (P * h)) (8 * P * h) (r * (8 * P) + c) =
      if maskBit img_data (P * h) P r c = true then white
      else if maskBit img_data 0 P r c = false then black
      else if (r + 1 < h ∧ inversePixel img_data P h (r + 1) c = true) ∨
              (c + 1 < 8 * P ∧ inversePixel img_data P h r (c + 1) = true) then black
      else transparent := by
  have hself := ctAt_rowcol img_data (P * h) P r c
  cases hA : maskBit img_data 0 P r c <;> cases hX : maskBit img_data (P * h) P r c
  · -- AND 0, XOR 0
    rw [hA, hX] at hself
    rw [visitedValue_of_ne_one _ _ _ _ (by rw [hself]; decide), hself]
    simp
  · -- AND 0, XOR 1
    rw [hA, hX] at hself
    rw [visitedValue_of_ne_one _ _ _ _ (by rw [hself]; decide), hself]
    simp
  · -- AND 1, XOR 0
    rw [hA, hX] at hself
    rw [visitedValue_of_one _ _ _ _ (by rw [hself]; rfl)]
    simp only [Bool.false_eq_true, if_false, Bool.true_eq_false]
    refine if_congr ⟨?_, ?_⟩ rfl rfl
    · rintro (⟨h1, h2⟩ | ⟨h1, h2, h3⟩)
      · left
        have e : r * (8 * P) + c + 8 * P = (r + 1) * (8 * P) + c := by ring
        refine ⟨(below_in_range_iff (8 * P) h r c hc).mp h1, ?_⟩
        rw [e] at h2
        exact (ctAt_inverse_iff img_data P h (r + 1) c).mp h2
      · right
        refine ⟨(right_in_row_iff (8 * P) r c hc).mp h2, ?_⟩
        have e : r * (8 * P) + c + 1 = r * (8 * P) + (c + 1) := by ring
        rw [e] at h3
        exact (ctAt_inverse_iff img_data P h r (c + 1)).mp h3
    · rintro (⟨h1, h2⟩ | ⟨h1, h2⟩)
      · left
        have e : r * (8 * P) + c + 8 * P = (r + 1) * (8 * P) + c := by ring
        refine ⟨(below_in_range_iff (8 * P) h r c hc).mpr h1, ?_⟩
        rw [e]
        exact (ctAt_inverse_iff img_data P h (r + 1) c).mpr h2
      · right
        have e : r * (8 * P) + c + 1 = r * (8 * P) + (c + 1) := by ring
        have hlt : r * (8 * P) + c + 1 < 8 * P * h := by
          have h3 : (r + 1) * (8 * P) ≤ h * (8 * P) := Nat.mul_le_mul_right _ hr
          have h4 : (r + 1) * (8 * P) = r * (8 * P) + 8 * P := by ring
          have h5 : h * (8 * P) = 8 * P * h := Nat.mul_comm _ _
          omega
        refine ⟨hlt, (right_in_row_iff (8 * P) r c hc).mpr h1, ?_⟩
        rw [e]
        exact (ctAt_inverse_iff img_data P h r (c + 1)).mpr h2
  · -- AND 1, XOR 1
    rw [hA, hX] at hself
    rw [visitedValue_of_ne_one _ _ _ _ (by rw [hself]; decide), hself]
    simp

/-- C15: for a monochrome shape with `Width = 8 * Pitch` whose two masks of
`Pitch * h` bytes each are addressable (`Pitch * h < 2^32`, `h` being half
the input height), every pixel `(r, c)` of the image `make_cursor_image`
returns lies in a row `r < h` and is: opaque white when its XOR bit is 1
(white or inverse); opaque black when its AND and XOR bits are 0; and, when
its AND bit is 1 and its XOR bit 0, opaque black if and only if the pixel
below it `(r+1, c)` or the pixel to its right in the same row `(r, c+1)` is
inverse, and fully transparent otherwise.  An inverse pixel above it or to
its left has no effect.  The image has all `Width * h` pixels when its size
`Width * h * 4` fits 32 bits. -/
theorem make_cursor_image_closed_form (img_data : List Nat)
    (shape_info : DXGI_OUTDUPL_POINTER_SHAPE_INFO)
    (hT : shape_info.Type_ = ShapeType.MONOCHROME)
    (hW : shape_info.Width = 8 * shape_info.Pitch)
    (hbytes : shape_info.Pitch * (shape_info.Height / 2) < 4294967296) :
    (shape_info.Width * (shape_info.Height / 2) * 4 < 4294967296 →
      (make_cursor_image img_data shape_info).length
        = shape_info.Width * (shape_info.Height / 2) * 4) ∧
    ∀ r c, c < shape_info.Width →
      r * shape_info.Width + c < (make_cursor_image img_data shape_info).length / 4 →
      r < shape_info.Height / 2 ∧
      imagePixel (make_cursor_image img_data shape_info) shape_info.Width r c =
        (if maskBit img_data (shape_info.Pitch * (shape_info.Height / 2)) shape_info.Pitch r c
            = true then white
         else if maskBit img_data 0 shape_info.Pitch r c = false then black
         else if (r + 1 < shape_info.Height / 2 ∧
                    inversePixel img_data shape_info.Pitch (shape_info.Height / 2) (r + 1) c
                      = true) ∨
                 (c + 1 < shape_info.Width ∧
                    inversePixel img_data shape_info.Pitch (shape_info.Height / 2) r (c + 1)
                      = true) then black
         else transparent) := by
  constructor
  · intro hsize
    rw [make_cursor_image_monochrome_length img_data shape_info hT, Nat.mod_eq_of_lt hsize]
    omega
  · intro r c hc hin
    obtain ⟨hqn, hpx⟩ :=
      make_cursor_image_monochrome_pixel img_data shape_info hT hW hbytes _ hin
    have hr : r < shape_info.Height / 2 := row_lt_of_index_lt _ _ r c hqn
    refine ⟨hr, ?_⟩
    unfold imagePixel
    rw [hpx, hW]
    rw [hW] at hc
    exact visitedValue_rowcol img_data shape_info.Pitch (shape_info.Height / 2) r c hc hr

/-- Witness for C15: an 8x3 shape (pitch 1) whose pixel `(1, 1)` is inverse
and whose pixels `(0, 1)`, `(1, 0)`, `(1, 2)` and `(2, 1)` have AND 1 and XOR
0: the pixels above and to the left of the inverse pixel are black, those to
its right and below it are transparent. -/
theorem make_cursor_image_closed_form_witness :
    (make_cursor_image [0x40, 0xE0, 0x40, 0x00, 0x40, 0x00]
      ⟨ShapeType.MONOCHROME, 8, 6, 1⟩).length = 96 ∧
    imagePixel (make_cursor_image [0x40, 0xE0, 0x40, 0x00, 0x40, 0x00]
      ⟨ShapeType.MONOCHROME, 8, 6, 1⟩) 8 0 1 = black ∧
    imagePixel (make_cursor_image [0x40, 0xE0, 0x40, 0x00, 0x40, 0x00]
      ⟨ShapeType.MONOCHROME, 8, 6, 1⟩) 8 1 0 = black ∧
    imagePixel (make_cursor_image [0x40, 0xE0, 0x40, 0x00, 0x40, 0x00]
      ⟨ShapeType.MONOCHROME, 8, 6, 1⟩) 8 1 1 = white ∧
    imagePixel (make_cursor_image [0x40, 0xE0, 0x40, 0x00, 0x40, 0x00]
      ⟨ShapeType.MONOCHROME, 8, 6, 1⟩) 8 1 2 = transparent ∧
    imagePixel (make_cursor_image [0x40, 0xE0, 0x40, 0x00, 0x40, 0x00]
      ⟨ShapeType.MONOCHROME, 8, 6, 1⟩) 8 2 1 = transparent :=
  ⟨(make_cursor_image_closed_form [0x40, 0xE0, 0x40, 0x00, 0x40, 0x00]
      ⟨ShapeType.MONOCHROME, 8, 6, 1⟩ rfl rfl (by decide)).1 (by decide),
   ((make_cursor_image_closed_form [0x40, 0xE0, 0x40, 0x00, 0x40, 0x00]
      ⟨ShapeType.MONOCHROME, 8, 6, 1⟩ rfl rfl (by decide)).2 0 1 (by decide)
      (by decide)).2.trans (by decide),
   ((make_cursor_image_closed_form [0x40, 0xE0, 0x40, 0x00, 0x40, 0x00]
      ⟨ShapeType.MONOCHROME, 8, 6, 1⟩ rfl rfl (by decide)).2 1 0 (by decide)
      (by decide)).2.trans (by decide),
   ((make_cursor_image_closed_form [0x40, 0xE0, 0x40, 0x00, 0x40, 0x00]
      ⟨ShapeType.MONOCHROME, 8, 6, 1⟩ rfl rfl (by decide)).2 1 1 (by decide)
      (by decide)).2.trans (by decide),
   ((make_cursor_image_closed_form [0x40, 0xE0, 0x40, 0x00, 0x40, 0x00]
      ⟨ShapeType.MONOCHROME, 8, 6, 1⟩ rfl rfl (by decide)).2 1 2 (by decide)
      (by decide)).2.trans (by decide),
   ((make_cursor_image_closed_form [0x40, 0xE0, 0x40, 0x00, 0x40, 0x00]
      ⟨ShapeType.MONOCHROME, 8, 6, 1⟩ rfl rfl (by decide)).2 2 1 (by decide)
      (by decide)).2.trans (by decide)⟩

/-! ## Pointer-shape decoding: the targets of the stores -/

theorem Scan.mem_writes_ite_store (c : Prop) [Decidable c] (s : Scan) (j v i : Nat)
    (h : i ∈ (if c then s.store j v else s).writes) : (c ∧ i = j) ∨ i ∈ s.writes := by
  by_cases hc : c
  · rw [if_pos hc] at h
    rcases List.mem_cons.mp h with h | h
    · exact Or.inl ⟨hc, h⟩
    · exact Or.inr h
  · rw [if_neg hc] at h
    exact Or.inr h

theorem inverseCase_writes (W : Nat) (s : Scan) (i : Nat)
    (h : i ∈ (inverseCase W s).writes) :
    i ∈ s.writes ∨ i = s.pixel_data ∨ i = s.pixel_data + 1 ∨
      (i = s.pixel_data + W ∧ s.pixel_data + W < s.cursor_img.length) ∨
      (i = s.pixel_data - 1 ∧ s.pixel_data % W ≠ 0) ∨
      (i = s.pixel_data - W ∧ W ≤ s.pixel_data) := by
  unfold inverseCase at h
  simp only [] at h
  rcases List.mem_cons.mp h with h | h
  · exact Or.inr (Or.inl h)
  rcases Scan.mem_writes_ite_store _ _ _ _ _ h with ⟨_, h⟩ | h
  · exact Or.inr (Or.inr (Or.inl h))
  rcases Scan.mem_writes_ite_store _ _ _ _ _ h with ⟨hc, h⟩ | h
  · simp only [Scan.length_ite_store] at hc
    exact Or.inr (Or.inr (Or.inr (Or.inl ⟨h, hc⟩)))
  rcases Scan.mem_writes_ite_store _ _ _ _ _ h with ⟨hc, h⟩ | h
  · refine Or.inr (Or.inr (Or.inr (Or.inr (Or.inl ⟨h, ?_⟩))))
    intro h0
    simp [h0] at hc
  rcases Scan.mem_writes_ite_store _ _ _ _ _ h with ⟨hc, h⟩ | h
  · exact Or.inr (Or.inr (Or.inr (Or.inr (Or.inr ⟨h, hc.1⟩))))
  · exact Or.inl h

theorem visitPixel_writes (W c : Nat) (s : Scan) (i : Nat)
    (h : i ∈ (visitPixel W c s).writes) :
    i ∈ s.writes ∨ i = s.pixel_data ∨
      (3 ≤ c ∧ (i = s.pixel_data + 1 ∨
        (i = s.pixel_data + W ∧ s.pixel_data + W < s.cursor_img.length) ∨
        (i = s.pixel_data - 1 ∧ s.pixel_data % W ≠ 0) ∨
        (i = s.pixel_data - W ∧ W ≤ s.pixel_data))) := by
  unfold visitPixel at h
  split at h
  · rcases List.mem_cons.mp h with h | h
    · exact Or.inr (Or.inl h)
    · exact Or.inl h
  · rcases List.mem_cons.mp h with h | h
    · exact Or.inr (Or.inl h)
    · exact Or.inl h
  · rcases List.mem_cons.mp h with h | h
    · exact Or.inr (Or.inl h)
    · exact Or.inl h
  · rename_i h0 h2 h1
    have hc : 3 ≤ c := by
      rcases Nat.lt_or_ge c 3 with hlt | hge
      · interval_cases c
        · exact absurd rfl h0
        · exact absurd rfl h1
        · exact absurd rfl h2
      · exact hge
    have h' : i ∈ (inverseCase W s).writes := h
    rcases inverseCase_writes W s i h' with h | h | h
    · exact Or.inl h
    · exact Or.inr (Or.inl h)
    · exact Or.inr (Or.inr ⟨hc, h⟩)

theorem scanPixels_writes {W : Nat} {ct : Nat → Nat} (hW : 0 < W) (hct : ∀ i, ct i ≤ 3)
    (L : Nat) :
    ∀ n, n ≤ L → ∀ i ∈ (scanPixels W ct (List.range n)
        { cursor_img := List.replicate L 0, pixel_data := 0, writes := [] }).writes,
      i < L ∨ (i = L ∧ n = L ∧ 3 ≤ ct (L - 1)) := by
  intro n
  induction n with
  | zero =>
      intro _ i hi
      simp [scanPixels] at hi
  | succ n ih =>
      intro hn i hi
      rw [scanPixels_range_succ] at hi
      have hinv := ScanInv.scan hW hct L n
      have hold := ih (by omega)
      rcases visitPixel_writes W (ct n) _ i hi with h | h | ⟨hc, h⟩
      · rcases hold i h with h' | ⟨_, h', _⟩
        · exact Or.inl h'
        · omega
      · rw [hinv.pos] at h
        exact Or.inl (by omega)
      · rw [hinv.pos, hinv.len] at h
        rcases h with h | ⟨h, h'⟩ | ⟨h, _⟩ | ⟨h, _⟩
        · rcases Nat.lt_or_ge (n + 1) L with hlt | hge
          · exact Or.inl (by omega)
          · have hnL : n + 1 = L := by omega
            refine Or.inr ⟨by omega, hnL, ?_⟩
            have : L - 1 = n := by omega
            rw [this]; exact hc
        · exact Or.inl (by omega)
        · exact Or.inl (by omega)
        · exact Or.inl (by omega)

theorem inverseCase_writes_right (W : Nat) (s : Scan)
    (hcol : (if s.pixel_data % W ≠ 0 then 1 else 0) ≠ (W + 4294967295) % 4294967296) :
    s.pixel_data + 1 ∈ (inverseCase W s).writes := by
  unfold inverseCase
  simp only []
  apply List.mem_cons_of_mem
  rw [if_pos hcol]
  exact List.mem_cons_self _ _

theorem visitPixel_inverse (W c : Nat) (s : Scan) (hc : 3 ≤ c) :
    (visitPixel W c s).writes = (inverseCase W s).writes := by
  unfold visitPixel
  split
  · omega
  · omega
  · omega
  · rfl

theorem monochromeScan_eq_scan (img_data : List Nat)
    (shape_info : DXGI_OUTDUPL_POINTER_SHAPE_INFO)
    (hW : shape_info.Width = 8 * shape_info.Pitch)
    (hsize : shape_info.Width * (shape_info.Height / 2) * 4 < 4294967296) :
    monochromeScan img_data shape_info =
      scanPixels shape_info.Width (ctAt img_data (shape_info.Pitch * (shape_info.Height / 2)))
        (List.range (shape_info.Width * (shape_info.Height / 2)))
        { cursor_img := List.replicate (shape_info.Width * (shape_info.Height / 2)) 0,
          pixel_data := 0, writes := [] } := by
  have hbytes : shape_info.Pitch * (shape_info.Height / 2) % 4294967296 =
      shape_info.Pitch * (shape_info.Height / 2) := by
    apply Nat.mod_eq_of_lt
    have : shape_info.Width * (shape_info.Height / 2) =
        8 * (shape_info.Pitch * (shape_info.Height / 2)) := by rw [hW]; ring
    omega
  have hlen : shape_info.Width * (shape_info.Height / 2) * 4 % 4294967296 / 4 =
      shape_info.Width * (shape_info.Height / 2) := by
    rw [Nat.mod_eq_of_lt hsize]; omega
  have hn : 8 * (shape_info.Pitch * (shape_info.Height / 2)) =
      shape_info.Width * (shape_info.Height / 2) := by rw [hW]; ring
  rw [monochromeScan_eq, hbytes, hlen, hn]

/-- The store targets of the scan of a monochrome shape without row padding
(`Width = 8 * Pitch`, at least one row, buffer size within 32 bits): every
target is below `Width * h`, except that `Width * h` itself, one pixel past
the buffer, is a target exactly when the last pixel of the image is inverse. -/
theorem monochromeScan_writes (img_data : List Nat)
    (shape_info : DXGI_OUTDUPL_POINTER_SHAPE_INFO)
    (hW : shape_info.Width = 8 * shape_info.Pitch)
    (hP : 0 < shape_info.Pitch) (hh : 0 < shape_info.Height / 2)
    (hsize : shape_info.Width * (shape_info.Height / 2) * 4 < 4294967296) :
    (∀ i ∈ (monochromeScan img_data shape_info).writes,
      i ≤ shape_info.Width * (shape_info.Height / 2)) ∧
    (shape_info.Width * (shape_info.Height / 2) ∈ (monochromeScan img_data shape_info).writes ↔
      inversePixel img_data shape_info.Pitch (shape_info.Height / 2)
        (shape_info.Height / 2 - 1) (shape_info.Width - 1) = true) := by
  have hpos : 0 < shape_info.Width := by omega
  have hct := ctAt_le img_data (shape_info.Pitch * (shape_info.Height / 2))
  have hLpos : 0 < shape_info.Width * (shape_info.Height / 2) := Nat.mul_pos hpos hh
  have hlast : shape_info.Width * (shape_info.Height / 2) - 1 =
      (shape_info.Height / 2 - 1) * (8 * shape_info.Pitch) + (shape_info.Width - 1) := by
    have e : shape_info.Height / 2 = (shape_info.Height / 2 - 1) + 1 := by omega
    have e2 : shape_info.Width * (shape_info.Height / 2) =
        (shape_info.Height / 2 - 1) * shape_info.Width + shape_info.Width := by
      conv_lhs => rw [e]
      ring
    rw [e2, ← hW]
    omega
  have hinvIff : 3 ≤ ctAt img_data (shape_info.Pitch * (shape_info.Height / 2))
      (shape_info.Width * (shape_info.Height / 2) - 1) ↔
      inversePixel img_data shape_info.Pitch (shape_info.Height / 2)
        (shape_info.Height / 2 - 1) (shape_info.Width - 1) = true := by
    rw [hlast]
    exact ctAt_inverse_iff _ _ _ _ _
  rw [monochromeScan_eq_scan img_data shape_info hW hsize]
  have hall := scanPixels_writes hpos hct (shape_info.Width * (shape_info.Height / 2))
    (shape_info.Width * (shape_info.Height / 2)) (le_refl _)
  refine ⟨?_, ?_, ?_⟩
  · intro i hi
    rcases hall i hi with h | ⟨h, _⟩
    · omega
    · omega
  · intro hi
    rcases hall _ hi with h | ⟨_, _, h⟩
    · omega
    · exact hinvIff.mp h
  · intro hinvp
    have h3 := hinvIff.mpr hinvp
    obtain ⟨m, hm⟩ : ∃ m, shape_info.Width * (shape_info.Height / 2) = m + 1 :=
      ⟨shape_info.Width * (shape_info.Height / 2) - 1, by omega⟩
    rw [hm] at h3 ⊢
    simp only [Nat.add_sub_cancel] at h3
    rw [scanPixels_range_succ, visitPixel_inverse _ _ _ h3]
    have hstate := ScanInv.scan hpos hct (m + 1) m
    have hmem := inverseCase_writes_right shape_info.Width
      (scanPixels shape_info.Width (ctAt img_data (shape_info.Pitch * (shape_info.Height / 2)))
        (List.range m) { cursor_img := List.replicate (m + 1) 0, pixel_data := 0, writes := [] })
      (by
        have hWlt : shape_info.Width < 4294967296 := by
          have : shape_info.Width ≤ shape_info.Width * (shape_info.Height / 2) :=
            Nat.le_mul_of_pos_right _ hh
          omega
        have hW8 : 8 ≤ shape_info.Width := by omega
        have : (shape_info.Width + 4294967295) % 4294967296 = shape_info.Width - 1 := by omega
        rw [this]
        split_ifs <;> omega)
    rw [hstate.pos] at hmem
    exact hmem

/-! ## Pointer-shape decoding: AND rows `0xFF`, XOR rows `0x00` -/

theorem testBit_ff (k : Nat) (hk : k ≤ 7) : (0xFF : Nat).testBit k = true := by
  interval_cases k <;> decide

/-- C2 (amended): for every monochrome shape without row padding
(`Width = 8 * Pitch`) whose image size `Width * h * 4` fits 32 bits (`h` being
half the input height), whose AND-mask bytes are all `0xFF` and whose
XOR-mask bytes are all `0x00`, the decoded image has `Width * h * 4` bytes
and every pixel `(r, c)` of it is fully transparent (`0x00000000`); every
store of the scan goes to a pixel of the buffer. -/
theorem make_cursor_image_and_ff_unpadded (img_data : List Nat)
    (shape_info : DXGI_OUTDUPL_POINTER_SHAPE_INFO)
    (hT : shape_info.Type_ = ShapeType.MONOCHROME)
    (hW : shape_info.Width = 8 * shape_info.Pitch)
    (hsize : shape_info.Width * (shape_info.Height / 2) * 4 < 4294967296)
    (hand : ∀ i, i < shape_info.Pitch * (shape_info.Height / 2) → img_data.getD i 0 = 0xFF)
    (hxor : ∀ i, i < shape_info.Pitch * (shape_info.Height / 2) →
      img_data.getD (shape_info.Pitch * (shape_info.Height / 2) + i) 0 = 0x00) :
    (make_cursor_image img_data shape_info).length
      = shape_info.Width * (shape_info.Height / 2) * 4 ∧
    (∀ r c, r < shape_info.Height / 2 → c < shape_info.Width →
      imagePixel (make_cursor_image img_data shape_info) shape_info.Width r c = 0x00000000) ∧
    (∀ i ∈ (monochromeScan img_data shape_info).writes,
      i < (monochromeScan img_data shape_info).cursor_img.length) := by
  have hbyte : ∀ r c, r < shape_info.Height / 2 → c < shape_info.Width →
      r * shape_info.Pitch + c / 8 < shape_info.Pitch * (shape_info.Height / 2) := by
    intro r c hr hc
    have h1 : c / 8 < shape_info.Pitch := by omega
    have h2 : (r + 1) * shape_info.Pitch ≤ (shape_info.Height / 2) * shape_info.Pitch :=
      Nat.mul_le_mul_right _ hr
    have h3 : (r + 1) * shape_info.Pitch = r * shape_info.Pitch + shape_info.Pitch := by ring
    have h4 : (shape_info.Height / 2) * shape_info.Pitch =
        shape_info.Pitch * (shape_info.Height / 2) := by ring
    omega
  have hA : ∀ r c, r < shape_info.Height / 2 → c < shape_info.Width →
      maskBit img_data 0 shape_info.Pitch r c = true := by
    intro r c hr hc
    unfold maskBit
    rw [Nat.zero_add, hand _ (hbyte r c hr hc)]
    exact testBit_ff _ (by omega)
  have hX : ∀ r c, r < shape_info.Height / 2 → c < shape_info.Width →
      maskBit img_data (shape_info.Pitch * (shape_info.Height / 2)) shape_info.Pitch r c
        = false := by
    intro r c hr hc
    unfold maskBit
    rw [Nat.add_assoc, hxor _ (hbyte r c hr hc)]
    simp
  refine ⟨?_, ?_, ?_⟩
  · rw [make_cursor_image_monochrome_length img_data shape_info hT, Nat.mod_eq_of_lt hsize]
    omega
  · intro r c hr hc
    rw [make_cursor_image_plain_pixels img_data shape_info hT hW hsize
      (fun r c hr hc h => by rw [hX r c hr hc] at h; exact Bool.noConfusion h.2) r c hr hc,
      if_pos (hA r c hr hc)]
    rfl
  · intro i hi
    rw [monochromeScan_length, Nat.mod_eq_of_lt hsize, Nat.mul_div_cancel _ (by norm_num)]
    rcases Nat.eq_zero_or_pos (shape_info.Width * (shape_info.Height / 2)) with h0 | hpos
    · rw [monochromeScan_eq_scan img_data shape_info hW hsize, h0] at hi
      simp [scanPixels] at hi
    · have hWpos : 0 < shape_info.Width := by
        rcases Nat.eq_zero_or_pos shape_info.Width with h | h
        · rw [h, Nat.zero_mul] at hpos; omega
        · exact h
      have hh : 0 < shape_info.Height / 2 := by
        rcases Nat.eq_zero_or_pos (shape_info.Height / 2) with h | h
        · rw [h, Nat.mul_zero] at hpos; omega
        · exact h
      have hP : 0 < shape_info.Pitch := by omega
      have hw := monochromeScan_writes img_data shape_info hW hP hh hsize
      have hle := hw.1 i hi
      rcases Nat.lt_or_ge i (shape_info.Width * (shape_info.Height / 2)) with hlt | hge
      · exact hlt
      · have hi' : i = shape_info.Width * (shape_info.Height / 2) := by omega
        rw [hi'] at hi
        have hinv := hw.2.mp hi
        unfold inversePixel at hinv
        rw [hX _ _ (by omega) (by omega)] at hinv
        simp at hinv

/-- Witness for C2 (amended): the shape of width 8, input height 4 and pitch
1 with AND rows `0xFF` and XOR rows `0x00`.  Its image is 8x2 (64 bytes) with
every pixel fully transparent, and the scan makes 16 stores, to the pixels 0
to 15 of its 16-pixel buffer (listed latest first). -/
theorem make_cursor_image_and_ff_unpadded_witness :
    (make_cursor_image [0xFF, 0xFF, 0x00, 0x00] ⟨ShapeType.MONOCHROME, 8, 4, 1⟩).length = 64 ∧
    imageHeight ⟨ShapeType.MONOCHROME, 8, 4, 1⟩ = 2 ∧
    (∀ r < 2, ∀ c < 8,
      imagePixel (make_cursor_image [0xFF, 0xFF, 0x00, 0x00] ⟨ShapeType.MONOCHROME, 8, 4, 1⟩)
        8 r c = 0x00000000) ∧
    (monochromeScan [0xFF, 0xFF, 0x00, 0x00] ⟨ShapeType.MONOCHROME, 8, 4, 1⟩).cursor_img.length
      = 16 ∧
    (monochromeScan [0xFF, 0xFF, 0x00, 0x00] ⟨ShapeType.MONOCHROME, 8, 4, 1⟩).writes
      = [15, 14, 13, 12, 11, 10, 9, 8, 7, 6, 5, 4, 3, 2, 1, 0] :=
  ⟨(make_cursor_image_and_ff_unpadded [0xFF, 0xFF, 0x00, 0x00]
      ⟨ShapeType.MONOCHROME, 8, 4, 1⟩ rfl rfl (by decide) (by decide) (by decide)).1.trans
      (by decide),
   by decide,
   fun r hr c hc =>
     (make_cursor_image_and_ff_unpadded [0xFF, 0xFF, 0x00, 0x00]
       ⟨ShapeType.MONOCHROME, 8, 4, 1⟩ rfl rfl (by decide) (by decide) (by decide)).2.1
       r c hr hc,
   by decide,
   by decide⟩

/-- C14 (failing inputs): stores are listed latest first.  In an 8x1 shape
(input height 2, pitch 1) whose last pixel `(0, 7)` is inverse the buffer has
`Width * h = 8` pixels and the visit of pixel 7 stores to index 8, past the
buffer, before it stores to 7.  In an 8x2 shape whose pixel `(0, 7)`, in the
last column, is inverse, the visit of pixel 7 stores to 15 (below), then to 8
(the slot to its right, which is pixel `(1, 0)`), then to 7. -/
theorem make_cursor_image_stores_past_end :
    inversePixel [0x01, 0x01] 1 1 0 7 = true ∧
    (monochromeScan [0x01, 0x01] ⟨ShapeType.MONOCHROME, 8, 2, 1⟩).cursor_img.length = 8 ∧
    (monochromeScan [0x01, 0x01] ⟨ShapeType.MONOCHROME, 8, 2, 1⟩).writes
      = [7, 8, 6, 5, 4, 3, 2, 1, 0] ∧
    inversePixel [0x01, 0x00, 0x01, 0x00] 1 2 0 7 = true ∧
    (monochromeScan [0x01, 0x00, 0x01, 0x00] ⟨ShapeType.MONOCHROME, 8, 4, 1⟩).writes
      = [15, 14, 13, 12, 11, 10, 9, 8, 7, 8, 15, 6, 5, 4, 3, 2, 1, 0] := by
  decide

end Sunshine
